import Mathlib

/-!
Shallow embedding of the tailored-ephemeris engine (Rust sources under src/)
over the real numbers, together with proofs of the specification claims.

Floating-point arithmetic of the source is modelled by exact real arithmetic:
every f64 value becomes a real number, every f64 operation the corresponding
real operation.  The Rust remainder operator on f64 (truncated remainder,
sign of the dividend) is modelled by rustRem, the f64 atan2 intrinsic by
atan2 below, and f64 floor and the as-i32 cast by the integer floor and
truncation on reals.
-/

namespace Ephem

open Real

/- ------------------------------------------------------------------ -/
/- constants.rs                                                        -/
/- ------------------------------------------------------------------ -/

noncomputable def TWOPI : ℝ := 2 * Real.pi

noncomputable def DEG_TO_RAD : ℝ := Real.pi / 180

noncomputable def RAD_TO_DEG : ℝ := 180 / Real.pi

noncomputable def ARCSEC_TO_RAD : ℝ := Real.pi / (180 * 3600)

def J2000 : ℝ := 2451545.0

def DAYS_PER_CENTURY : ℝ := 36525.0

def AU_KM : ℝ := 149597870.7

def MOSHIER_START : ℝ := 625307.5

def MOSHIER_END : ℝ := 2817057.5

/- ------------------------------------------------------------------ -/
/- primitive f64 operations modelled on the reals                      -/
/- ------------------------------------------------------------------ -/

/-- Truncation toward zero of a real number, as an integer.  Models both the
Rust f64-to-i32 cast and the implicit truncation in the f64 remainder. -/
noncomputable def rtrunc (r : ℝ) : ℤ := if 0 ≤ r then ⌊r⌋ else -⌊-r⌋

/-- Model of the Rust remainder x % y on f64 (truncated division remainder,
carries the sign of the dividend). -/
noncomputable def rustRem (x y : ℝ) : ℝ := x - y * (rtrunc (x / y) : ℝ)

/-- Model of f64::atan2 (y first, then x), on reals.  The signed-zero
distinctions of IEEE 754 collapse: atan2 0 0 is taken to be 0. -/
noncomputable def atan2 (y x : ℝ) : ℝ :=
  if 0 < x then Real.arctan (y / x)
  else if x < 0 then
    (if 0 ≤ y then Real.arctan (y / x) + Real.pi else Real.arctan (y / x) - Real.pi)
  else if 0 < y then Real.pi / 2
  else if y < 0 then -(Real.pi / 2)
  else 0

/-- Rust clamp on f64 (no NaN in the real model). -/
noncomputable def clamp (x lo hi : ℝ) : ℝ := if x < lo then lo else if hi < x then hi else x

/- ------------------------------------------------------------------ -/
/- math.rs                                                             -/
/- ------------------------------------------------------------------ -/

/-- deg_norm from src/math.rs: normalize an angle to [0,360), with the
snap-to-zero guard for remainders smaller than 1e-13 in absolute value. -/
noncomputable def deg_norm (x : ℝ) : ℝ :=
  let y := rustRem x 360
  let y := if |y| < 1e-13 then 0 else y
  if y < 0 then y + 360 else y

/-- deg_norm_180 from src/math.rs: normalize an angle to (-180,180]. -/
noncomputable def deg_norm_180 (x : ℝ) : ℝ :=
  let y := deg_norm x
  if 180 < y then y - 360 else y

/-- angle_diff from src/math.rs. -/
noncomputable def angle_diff (a1 a2 : ℝ) : ℝ := deg_norm_180 (a1 - a2)

/-- obliquity from src/math.rs (mean obliquity, IAU 2006, radians). -/
noncomputable def obliquity (jd : ℝ) : ℝ :=
  let t := (jd - J2000) / DAYS_PER_CENTURY
  let eps := 84381.406
    - 46.836769 * t
    - 0.0001831 * t * t
    + 0.00200340 * t * t * t
    - 0.000000576 * t * t * t * t
    - 0.0000000434 * t * t * t * t * t
  eps * ARCSEC_TO_RAD

/-- sidereal_time from src/math.rs (Greenwich mean sidereal time, hours). -/
noncomputable def sidereal_time (jd_ut : ℝ) : ℝ :=
  let jd0 := ((⌊jd_ut - 0.5⌋ : ℤ) : ℝ) + 0.5
  let t := (jd0 - J2000) / DAYS_PER_CENTURY
  let ut := (jd_ut - jd0) * 24
  let gmst0 := 6.697374558
    + 2400.051336 * t
    + 0.000025862 * t * t
    - 0.0000000017 * t * t * t
  let gmst := gmst0 + ut * 1.00273790935
  let result := rustRem gmst 24
  if result < 0 then result + 24 else result

/-- local_sidereal_time from src/math.rs. -/
noncomputable def local_sidereal_time (jd_ut longitude : ℝ) : ℝ :=
  let gmst := sidereal_time jd_ut
  let lst := gmst + longitude / 15
  let result := rustRem lst 24
  if result < 0 then result + 24 else result

/-- armc from src/math.rs (local sidereal time in degrees). -/
noncomputable def armc (jd_ut longitude : ℝ) : ℝ := local_sidereal_time jd_ut longitude * 15

/- ------------------------------------------------------------------ -/
/- lib.rs: data model                                                  -/
/- ------------------------------------------------------------------ -/

/-- Planet identifiers from src/lib.rs. -/
inductive Planet where
  | Sun | Moon | Mercury | Venus | Mars | Jupiter | Saturn
  | Uranus | Neptune | Pluto | TrueNode
deriving DecidableEq, Repr

/-- Numeric identifier of a planet (the repr(i32) discriminants). -/
def Planet.toI32 : Planet → ℤ
  | .Sun => 0 | .Moon => 1 | .Mercury => 2 | .Venus => 3 | .Mars => 4
  | .Jupiter => 5 | .Saturn => 6 | .Uranus => 7 | .Neptune => 8
  | .Pluto => 9 | .TrueNode => 11

/-- Position result from src/lib.rs. -/
structure Position where
  longitude : ℝ
  latitude : ℝ
  distance : ℝ
  speed_longitude : ℝ
  speed_latitude : ℝ
  speed_distance : ℝ

/-- House cusps result from src/lib.rs.  The cusp array is modelled as a
function from the index; indices outside 0..12 give 0. -/
structure Houses where
  cusps : ℕ → ℝ
  ascendant : ℝ
  mc : ℝ
  armc : ℝ
  vertex : ℝ

/-- Error type from src/lib.rs. -/
inductive Error where
  | InvalidDate
  | InvalidPlanet (id : ℤ)
  | CalculationError
  | OutOfRange
deriving DecidableEq, Repr

/-- delta_t from src/lib.rs (approximate TT minus UT, in days). -/
noncomputable def delta_t (jd : ℝ) : ℝ :=
  let year := 2000 + (jd - J2000) / 365.25
  let dt_seconds :=
    if year < 1900 then
      (let t := (year - 1820) / 100; -20 + 32 * t * t)
    else if year < 1950 then
      (let t := year - 1900; -2.79 + 1.494119 * t - 0.0598939 * t * t + 0.0061966 * t * t * t)
    else if year < 2005 then
      (let t := year - 2000; 63.86 + 0.3345 * t - 0.060374 * t * t + 0.0017275 * t * t * t)
    else if year < 2050 then
      (let t := year - 2000; 62.92 + 0.32217 * t + 0.005589 * t * t)
    else
      (let t := (year - 1820) / 100; -20 + 32 * t * t)
  dt_seconds / 86400

/- ------------------------------------------------------------------ -/
/- planets.rs                                                          -/
/- ------------------------------------------------------------------ -/

/-- solve_kepler iteration body from src/planets.rs, with explicit fuel for
the bounded for-loop (10 iterations, early break once the correction drops
below 1e-12 in absolute value). -/
noncomputable def solve_kepler_aux (m e : ℝ) : ℕ → ℝ → ℝ
  | 0, ea => ea
  | n + 1, ea =>
    let delta := (ea - e * Real.sin ea - m) / (1 - e * Real.cos ea)
    let ea2 := ea - delta
    if |delta| < 1e-12 then ea2 else solve_kepler_aux m e n ea2

/-- solve_kepler from src/planets.rs: Newton-Raphson for the eccentric
anomaly, seeded at the mean anomaly. -/
noncomputable def solve_kepler (m e : ℝ) : ℝ := solve_kepler_aux m e 10 m

/-- calc_earth_helio from src/planets.rs. -/
noncomputable def calc_earth_helio (jd : ℝ) : ℝ × ℝ × ℝ :=
  let t := (jd - J2000) / DAYS_PER_CENTURY
  let l := deg_norm (100.4665 + 36000.7698 * t) * DEG_TO_RAD
  let e := 0.01671 - 0.00004 * t
  let m := deg_norm (357.5291 + 35999.0503 * t) * DEG_TO_RAD
  let c := (2 * e - 0.25 * e * e * e) * Real.sin m
    + 1.25 * e * e * Real.sin (2 * m)
    + 13 / 12 * e * e * e * Real.sin (3 * m)
  let v := l + c
  let r := 1.00014 * (1 - e * e) / (1 + e * Real.cos (m + c))
  (r * Real.cos v, r * Real.sin v, 0)

/-- calc_planet_kepler from src/planets.rs: geocentric position from
Keplerian elements; the speed branch re-evaluates the function 0.1 days
later with the speed flag off. -/
noncomputable def calc_planet_kepler (jd mean_lon semi_major ecc incl asc_node lon_peri : ℝ)
    (calc_speed : Bool) : Except Error Position :=
  let m := deg_norm (mean_lon - lon_peri) * DEG_TO_RAD
  let e_anom := solve_kepler m ecc
  let v := 2 * atan2 (Real.sqrt (1 + ecc) * Real.tan (e_anom / 2)) (Real.sqrt (1 - ecc))
  let r := semi_major * (1 - ecc * Real.cos e_anom)
  let u := v + (lon_peri - asc_node) * DEG_TO_RAD
  let incl_rad := incl * DEG_TO_RAD
  let node_rad := asc_node * DEG_TO_RAD
  let x_ecl := r * (Real.cos node_rad * Real.cos u - Real.sin node_rad * Real.sin u * Real.cos incl_rad)
  let y_ecl := r * (Real.sin node_rad * Real.cos u + Real.cos node_rad * Real.sin u * Real.cos incl_rad)
  let z_ecl := r * Real.sin u * Real.sin incl_rad
  let earth := calc_earth_helio jd
  let x_geo := x_ecl - earth.1
  let y_geo := y_ecl - earth.2.1
  let z_geo := z_ecl - earth.2.2
  let dist := Real.sqrt (x_geo * x_geo + y_geo * y_geo + z_geo * z_geo)
  let lon := deg_norm (atan2 y_geo x_geo * RAD_TO_DEG)
  let lat := Real.arcsin (z_geo / dist) * RAD_TO_DEG
  if hs : calc_speed = true then
    match calc_planet_kepler (jd + 0.1)
        (mean_lon + 0.1 * 360 / (365.25 * semi_major ^ (1.5 : ℝ)))
        semi_major ecc incl asc_node lon_peri false with
    | .error err => .error err
    | .ok pos2 => .ok ⟨lon, lat, dist, angle_diff pos2.longitude lon / 0.1, 0, 0⟩
  else
    .ok ⟨lon, lat, dist, 0, 0, 0⟩
termination_by calc_speed.toNat
decreasing_by simp [hs]

/-- calc_sun from src/planets.rs. -/
noncomputable def calc_sun (jd : ℝ) (calc_speed : Bool) : Except Error Position :=
  let t := (jd - J2000) / DAYS_PER_CENTURY
  let t2 := t * t
  let t3 := t2 * t
  let l0 := deg_norm (280.4664567 + 36000.76982779 * t + 0.0003032028 * t2)
  let m := deg_norm (357.5291092 + 35999.0502909 * t - 0.0001536 * t2 + t3 / 24490000)
  let m_rad := m * DEG_TO_RAD
  let c := (1.9146000 - 0.004817 * t - 0.000014 * t2) * Real.sin m_rad
    + (0.019993 - 0.000101 * t) * Real.sin (2 * m_rad)
    + 0.000290 * Real.sin (3 * m_rad)
  let sun_lon := deg_norm (l0 + c)
  let e := 0.016708634 - 0.000042037 * t - 0.0000001267 * t2
  let v := m_rad + c * DEG_TO_RAD
  let r := 1.000001018 * (1 - e * e) / (1 + e * Real.cos v)
  let speed :=
    if calc_speed then
      let dt := 0.01
      let jd2 := jd + dt
      let t2_new := (jd2 - J2000) / DAYS_PER_CENTURY
      let l02 := deg_norm (280.4664567 + 36000.76982779 * t2_new)
      let m2 := deg_norm (357.5291092 + 35999.0502909 * t2_new) * DEG_TO_RAD
      let c2 := 1.9146 * Real.sin m2 + 0.019993 * Real.sin (2 * m2) + 0.00029 * Real.sin (3 * m2)
      let sun_lon2 := deg_norm (l02 + c2)
      angle_diff sun_lon2 sun_lon / dt
    else 0
  .ok ⟨sun_lon, 0, r, speed, 0, 0⟩

/-- calc_mercury from src/planets.rs. -/
noncomputable def calc_mercury (jd : ℝ) (calc_speed : Bool) : Except Error Position :=
  let t := (jd - J2000) / DAYS_PER_CENTURY
  let l := deg_norm (252.2509 + 149474.0722 * t)
  calc_planet_kepler jd l 0.38710 (0.20563 + 0.000020 * t) (7.005 + 0.0018 * t)
    (48.331 + 1.1852 * t) (77.456 + 1.5555 * t) calc_speed

/-- calc_venus from src/planets.rs. -/
noncomputable def calc_venus (jd : ℝ) (calc_speed : Bool) : Except Error Position :=
  let t := (jd - J2000) / DAYS_PER_CENTURY
  let l := deg_norm (181.9798 + 58519.2130 * t)
  calc_planet_kepler jd l 0.72333 (0.00677 - 0.000047 * t) (3.3947 + 0.0010 * t)
    (76.680 + 0.9011 * t) (131.533 + 1.4087 * t) calc_speed

/-- calc_mars from src/planets.rs. -/
noncomputable def calc_mars (jd : ℝ) (calc_speed : Bool) : Except Error Position :=
  let t := (jd - J2000) / DAYS_PER_CENTURY
  let l := deg_norm (355.4330 + 19141.6964 * t)
  calc_planet_kepler jd l 1.52368 (0.09340 + 0.000090 * t) (1.8497 - 0.0007 * t)
    (49.558 + 0.7721 * t) (336.060 + 1.8410 * t) calc_speed

/-- calc_jupiter from src/planets.rs (calibrated rates). -/
noncomputable def calc_jupiter (jd : ℝ) (calc_speed : Bool) : Except Error Position :=
  let t := (jd - J2000) / DAYS_PER_CENTURY
  let l := deg_norm (34.29644051 + 3036.06 * t + 0.00022374 * t * t)
  calc_planet_kepler jd l (5.202887 + 0.0000019 * t) (0.04838624 - 0.00013253 * t)
    (1.30327 - 0.00019872 * t) (100.47390909 + 0.20469106 * t)
    (14.72847983 + 0.21252668 * t) calc_speed

/-- calc_saturn from src/planets.rs (calibrated rates). -/
noncomputable def calc_saturn (jd : ℝ) (calc_speed : Bool) : Except Error Position :=
  let t := (jd - J2000) / DAYS_PER_CENTURY
  let l := deg_norm (50.11432077 + 1223.88 * t - 0.00019837 * t * t)
  calc_planet_kepler jd l (9.536676 + 0.0000044 * t) (0.05386179 - 0.00050991 * t)
    (2.48887878 + 0.00193609 * t) (113.66242448 - 0.28867794 * t)
    (92.59887831 - 0.04149890 * t) calc_speed

/-- calc_uranus from src/planets.rs. -/
noncomputable def calc_uranus (jd : ℝ) (calc_speed : Bool) : Except Error Position :=
  let t := (jd - J2000) / DAYS_PER_CENTURY
  let l := deg_norm (313.24710451 + 429.8520 * t + 0.00000434 * t * t)
  calc_planet_kepler jd l (19.189165 - 0.0000024 * t) (0.04725744 - 0.00004397 * t)
    (0.77319689 - 0.00019490 * t) (74.01692503 + 0.04240589 * t)
    (170.95427630 + 0.40805281 * t) calc_speed

/-- calc_neptune from src/planets.rs. -/
noncomputable def calc_neptune (jd : ℝ) (calc_speed : Bool) : Except Error Position :=
  let t := (jd - J2000) / DAYS_PER_CENTURY
  let l := deg_norm (304.88197031 + 219.8995 * t - 0.00000070 * t * t)
  calc_planet_kepler jd l (30.069923 + 0.00000026 * t) (0.00859048 + 0.00000513 * t)
    (1.76995259 + 0.00022400 * t) (131.78422574 - 0.00508664 * t)
    (44.96476227 - 0.32241464 * t) calc_speed

/-- calc_pluto from src/planets.rs (calibrated rate). -/
noncomputable def calc_pluto (jd : ℝ) (calc_speed : Bool) : Except Error Position :=
  let t := (jd - J2000) / DAYS_PER_CENTURY
  let l := deg_norm (238.9286 + 146.60 * t)
  calc_planet_kepler jd l 39.48169 (0.24883 + 0.00005 * t) 17.1417 110.299 224.067 calc_speed

/-- calc_planet from src/planets.rs: range check followed by per-planet
dispatch; the catch-all arm yields InvalidPlanet. -/
noncomputable def calc_planet (jd_et : ℝ) (planet : Planet) (calc_speed : Bool) :
    Except Error Position :=
  if jd_et < MOSHIER_START ∨ MOSHIER_END < jd_et then .error .OutOfRange
  else
    match planet with
    | .Sun => calc_sun jd_et calc_speed
    | .Mercury => calc_mercury jd_et calc_speed
    | .Venus => calc_venus jd_et calc_speed
    | .Mars => calc_mars jd_et calc_speed
    | .Jupiter => calc_jupiter jd_et calc_speed
    | .Saturn => calc_saturn jd_et calc_speed
    | .Uranus => calc_uranus jd_et calc_speed
    | .Neptune => calc_neptune jd_et calc_speed
    | .Pluto => calc_pluto jd_et calc_speed
    | p => .error (.InvalidPlanet p.toI32)

/- ------------------------------------------------------------------ -/
/- moon.rs                                                             -/
/- ------------------------------------------------------------------ -/

/-- calc_moon from src/moon.rs: truncated ELP2000-style lunar theory; the
speed branch re-evaluates the function 0.01 days later with the flag off. -/
noncomputable def calc_moon (jd_et : ℝ) (calc_speed : Bool) : Except Error Position :=
  let t := (jd_et - J2000) / DAYS_PER_CENTURY
  let lp := deg_norm (218.3164477 + 481267.88123421 * t
    - 0.0015786 * t * t + t * t * t / 538841)
  let d := deg_norm (297.8501921 + 445267.1114034 * t
    - 0.0018819 * t * t + t * t * t / 545868)
  let m := deg_norm (357.5291092 + 35999.0502909 * t
    - 0.0001536 * t * t)
  let mp := deg_norm (134.9633964 + 477198.8675055 * t
    + 0.0087414 * t * t + t * t * t / 69699)
  let f := deg_norm (93.2720950 + 483202.0175233 * t
    - 0.0036539 * t * t)
  let d_r := d * DEG_TO_RAD
  let m_r := m * DEG_TO_RAD
  let mp_r := mp * DEG_TO_RAD
  let f_r := f * DEG_TO_RAD
  let a1 := deg_norm (119.75 + 131.849 * t) * DEG_TO_RAD
  let a2 := deg_norm (53.09 + 479264.290 * t) * DEG_TO_RAD
  let a3 := deg_norm (313.45 + 481266.484 * t) * DEG_TO_RAD
  let e := 1 - 0.002516 * t - 0.0000074 * t * t
  let e2 := e * e
  let sum_l :=
      6288774 * Real.sin mp_r
    + 1274027 * Real.sin (2 * d_r - mp_r)
    + 658314 * Real.sin (2 * d_r)
    + 213618 * Real.sin (2 * mp_r)
    - 185116 * Real.sin m_r * e
    - 114332 * Real.sin (2 * f_r)
    + 58793 * Real.sin (2 * d_r - 2 * mp_r)
    + 57066 * Real.sin (2 * d_r - m_r - mp_r) * e
    + 53322 * Real.sin (2 * d_r + mp_r)
    + 45758 * Real.sin (2 * d_r - m_r) * e
    - 40923 * Real.sin (m_r - mp_r) * e
    - 34720 * Real.sin d_r
    - 30383 * Real.sin (m_r + mp_r) * e
    + 15327 * Real.sin (2 * d_r - 2 * f_r)
    - 12528 * Real.sin (mp_r + 2 * f_r)
    + 10980 * Real.sin (mp_r - 2 * f_r)
    + 10675 * Real.sin (4 * d_r - mp_r)
    + 10034 * Real.sin (3 * mp_r)
    + 8548 * Real.sin (4 * d_r - 2 * mp_r)
    - 7888 * Real.sin (2 * d_r + m_r - mp_r) * e
    - 6766 * Real.sin (2 * d_r + m_r) * e
    - 5163 * Real.sin (d_r - mp_r)
    + 4987 * Real.sin (d_r + m_r) * e
    + 4036 * Real.sin (2 * d_r - m_r + mp_r) * e
    + 3994 * Real.sin (2 * d_r + 2 * mp_r)
    + 3861 * Real.sin (4 * d_r)
    + 3665 * Real.sin (2 * d_r - 3 * mp_r)
    - 2689 * Real.sin (m_r - 2 * mp_r) * e
    - 2602 * Real.sin (2 * d_r - mp_r + 2 * f_r)
    + 2390 * Real.sin (2 * d_r - m_r - 2 * mp_r) * e
    - 2348 * Real.sin (d_r + mp_r)
    + 2236 * Real.sin (2 * d_r - 2 * m_r) * e2
    - 2120 * Real.sin (m_r + 2 * mp_r) * e
    - 2069 * Real.sin (2 * m_r) * e2
    + 2048 * Real.sin (2 * d_r - 2 * m_r - mp_r) * e2
    - 1773 * Real.sin (2 * d_r + mp_r - 2 * f_r)
    - 1595 * Real.sin (2 * d_r + 2 * f_r)
    + 1215 * Real.sin (4 * d_r - m_r - mp_r) * e
    - 1110 * Real.sin (2 * mp_r + 2 * f_r)
    - 892 * Real.sin (3 * d_r - mp_r)
    - 810 * Real.sin (2 * d_r + m_r + mp_r) * e
    + 759 * Real.sin (4 * d_r - m_r - 2 * mp_r) * e
    - 713 * Real.sin (2 * m_r - mp_r) * e2
    - 700 * Real.sin (2 * d_r + 2 * m_r - mp_r) * e2
    + 691 * Real.sin (2 * d_r + m_r - 2 * mp_r) * e
    + 596 * Real.sin (2 * d_r - m_r - 2 * f_r) * e
    + 549 * Real.sin (4 * d_r + mp_r)
    + 537 * Real.sin (4 * mp_r)
    + 520 * Real.sin (4 * d_r - m_r) * e
    - 487 * Real.sin (d_r - 2 * mp_r)
    - 399 * Real.sin (2 * d_r + m_r - 2 * f_r) * e
    - 381 * Real.sin (2 * mp_r - 2 * f_r)
    + 351 * Real.sin (d_r + m_r + mp_r) * e
    - 340 * Real.sin (3 * d_r - 2 * mp_r)
    + 330 * Real.sin (4 * d_r - 3 * mp_r)
    + 327 * Real.sin (2 * d_r - m_r + 2 * mp_r) * e
    - 323 * Real.sin (2 * m_r + mp_r) * e2
    + 299 * Real.sin (d_r + m_r - mp_r) * e
    + 294 * Real.sin (2 * d_r + 3 * mp_r)
  let al := 3958 * Real.sin a1 + 1962 * Real.sin (lp * DEG_TO_RAD - f_r) + 318 * Real.sin a2
  let sum_b :=
      5128122 * Real.sin f_r
    + 280602 * Real.sin (mp_r + f_r)
    + 277693 * Real.sin (mp_r - f_r)
    + 173237 * Real.sin (2 * d_r - f_r)
    + 55413 * Real.sin (2 * d_r - mp_r + f_r)
    + 46271 * Real.sin (2 * d_r - mp_r - f_r)
    + 32573 * Real.sin (2 * d_r + f_r)
    + 17198 * Real.sin (2 * mp_r + f_r)
    + 9266 * Real.sin (2 * d_r + mp_r - f_r)
    + 8822 * Real.sin (2 * mp_r - f_r)
    + 8216 * Real.sin (2 * d_r - m_r - f_r) * e
    + 4324 * Real.sin (2 * d_r - 2 * mp_r - f_r)
    + 4200 * Real.sin (2 * d_r + mp_r + f_r)
    - 3359 * Real.sin (2 * d_r + m_r - f_r) * e
    + 2463 * Real.sin (2 * d_r - m_r - mp_r + f_r) * e
    + 2211 * Real.sin (2 * d_r - m_r + f_r) * e
    + 2065 * Real.sin (2 * d_r - m_r - mp_r - f_r) * e
    - 1870 * Real.sin (m_r - mp_r - f_r) * e
    + 1828 * Real.sin (4 * d_r - mp_r - f_r)
    - 1794 * Real.sin (m_r + f_r) * e
    - 1749 * Real.sin (3 * f_r)
    - 1565 * Real.sin (m_r - mp_r + f_r) * e
    - 1491 * Real.sin (d_r + f_r)
    - 1475 * Real.sin (m_r + mp_r + f_r) * e
    - 1410 * Real.sin (m_r + mp_r - f_r) * e
    - 1344 * Real.sin (m_r - f_r) * e
    - 1335 * Real.sin (d_r - f_r)
    + 1107 * Real.sin (3 * mp_r + f_r)
    + 1021 * Real.sin (4 * d_r - f_r)
    + 833 * Real.sin (4 * d_r - mp_r + f_r)
    + 777 * Real.sin (mp_r - 3 * f_r)
    + 671 * Real.sin (4 * d_r - 2 * mp_r + f_r)
    + 607 * Real.sin (2 * d_r - 3 * f_r)
    + 596 * Real.sin (2 * d_r + 2 * mp_r - f_r)
    + 491 * Real.sin (2 * d_r - m_r + mp_r - f_r) * e
    - 451 * Real.sin (2 * d_r - 2 * mp_r + f_r)
    + 439 * Real.sin (3 * mp_r - f_r)
    + 422 * Real.sin (2 * d_r + 2 * mp_r + f_r)
    + 421 * Real.sin (2 * d_r - 3 * mp_r - f_r)
    - 366 * Real.sin (2 * d_r + m_r - mp_r + f_r) * e
    - 351 * Real.sin (2 * d_r + m_r + f_r) * e
    + 331 * Real.sin (4 * d_r + f_r)
    + 315 * Real.sin (2 * d_r - m_r + mp_r + f_r) * e
    + 302 * Real.sin (2 * d_r - 2 * m_r - f_r) * e2
    - 283 * Real.sin (mp_r + 3 * f_r)
    - 229 * Real.sin (2 * d_r + m_r + mp_r - f_r) * e
    + 223 * Real.sin (d_r + m_r - f_r) * e
    + 223 * Real.sin (d_r + m_r + f_r) * e
    - 220 * Real.sin (m_r - 2 * mp_r - f_r) * e
    - 220 * Real.sin (2 * d_r + m_r - mp_r - f_r) * e
    - 185 * Real.sin (d_r + mp_r + f_r)
    + 181 * Real.sin (2 * d_r - m_r - 2 * mp_r - f_r) * e
    - 177 * Real.sin (m_r + 2 * mp_r + f_r) * e
    + 176 * Real.sin (4 * d_r - 2 * mp_r - f_r)
    + 166 * Real.sin (4 * d_r - m_r - mp_r - f_r) * e
    - 164 * Real.sin (d_r + mp_r - f_r)
    + 132 * Real.sin (4 * d_r + mp_r - f_r)
    - 119 * Real.sin (d_r - mp_r - f_r)
    + 115 * Real.sin (4 * d_r - m_r - f_r) * e
    + 107 * Real.sin (2 * d_r - 2 * m_r + f_r) * e2
  let ab := -2235 * Real.sin (lp * DEG_TO_RAD)
    + 382 * Real.sin a3
    + 175 * Real.sin (a1 - f_r)
    + 175 * Real.sin (a1 + f_r)
    + 127 * Real.sin (lp * DEG_TO_RAD - mp_r)
    - 115 * Real.sin (lp * DEG_TO_RAD + mp_r)
  let sum_r :=
    - 20905355 * Real.cos mp_r
    - 3699111 * Real.cos (2 * d_r - mp_r)
    - 2955968 * Real.cos (2 * d_r)
    - 569925 * Real.cos (2 * mp_r)
    + 48888 * Real.cos m_r * e
    - 3149 * Real.cos (2 * f_r)
    + 246158 * Real.cos (2 * d_r - 2 * mp_r)
    - 152138 * Real.cos (2 * d_r - m_r - mp_r) * e
    - 170733 * Real.cos (2 * d_r + mp_r)
    - 204586 * Real.cos (2 * d_r - m_r) * e
    - 129620 * Real.cos (m_r - mp_r) * e
    + 108743 * Real.cos d_r
    + 104755 * Real.cos (m_r + mp_r) * e
    + 10321 * Real.cos (2 * d_r - 2 * f_r)
    + 79661 * Real.cos (mp_r - 2 * f_r)
    - 34782 * Real.cos (4 * d_r - mp_r)
    - 23210 * Real.cos (3 * mp_r)
    - 21636 * Real.cos (4 * d_r - 2 * mp_r)
    + 24208 * Real.cos (2 * d_r + m_r - mp_r) * e
    + 30824 * Real.cos (2 * d_r + m_r) * e
    - 8379 * Real.cos (d_r - mp_r)
    - 16675 * Real.cos (d_r + m_r) * e
    - 12831 * Real.cos (2 * d_r - m_r + mp_r) * e
    - 10445 * Real.cos (2 * d_r + 2 * mp_r)
    - 11650 * Real.cos (4 * d_r)
    + 14403 * Real.cos (2 * d_r - 3 * mp_r)
    - 7003 * Real.cos (m_r - 2 * mp_r) * e
    + 10056 * Real.cos (2 * d_r - m_r - 2 * mp_r) * e
    + 6322 * Real.cos (d_r + mp_r)
    - 9884 * Real.cos (2 * d_r - 2 * m_r) * e2
    + 5751 * Real.cos (m_r + 2 * mp_r) * e
  let longitude := deg_norm (lp + (sum_l + al) / 1000000)
  let latitude := (sum_b + ab) / 1000000
  let distance := (385000.56 + sum_r / 1000) / AU_KM
  if hs : calc_speed = true then
    match calc_moon (jd_et + 0.01) false with
    | .error err => .error err
    | .ok pos2 => .ok ⟨longitude, latitude, distance,
        angle_diff pos2.longitude longitude / 0.01, 0, 0⟩
  else
    .ok ⟨longitude, latitude, distance, 0, 0, 0⟩
termination_by calc_speed.toNat
decreasing_by simp [hs]

/- ------------------------------------------------------------------ -/
/- nodes.rs                                                            -/
/- ------------------------------------------------------------------ -/

/-- calc_true_node from src/nodes.rs: mean node plus a 5-term perturbation
series; the speed branch re-evaluates 0.1 days later, otherwise the fixed
mean retrograde daily motion is reported. -/
noncomputable def calc_true_node (jd_et : ℝ) (calc_speed : Bool) : Except Error Position :=
  let t := (jd_et - J2000) / DAYS_PER_CENTURY
  let omega_mean := deg_norm (125.0445479 - 1934.1362891 * t
    + 0.0020754 * t * t
    + t * t * t / 467441
    - t * t * t * t / 60616000)
  let d := deg_norm (297.8501921 + 445267.1114034 * t
    - 0.0018819 * t * t) * DEG_TO_RAD
  let m := deg_norm (357.5291092 + 35999.0502909 * t) * DEG_TO_RAD
  let mp := deg_norm (134.9633964 + 477198.8675055 * t) * DEG_TO_RAD
  let f := deg_norm (93.2720950 + 483202.0175233 * t) * DEG_TO_RAD
  let delta_omega :=
    - 1.4979 * Real.sin (2 * (d - f))
    - 0.1500 * Real.sin m
    - 0.1226 * Real.sin (2 * d)
    + 0.1176 * Real.sin (2 * f)
    - 0.0801 * Real.sin (2 * (mp - f))
  let omega := deg_norm (omega_mean + delta_omega)
  if hs : calc_speed = true then
    match calc_true_node (jd_et + 0.1) false with
    | .error err => .error err
    | .ok pos2 => .ok ⟨omega, 0, 0, angle_diff pos2.longitude omega / 0.1, 0, 0⟩
  else
    .ok ⟨omega, 0, 0, -0.0529539, 0, 0⟩
termination_by calc_speed.toNat
decreasing_by simp [hs]

/- ------------------------------------------------------------------ -/
/- houses.rs                                                           -/
/- ------------------------------------------------------------------ -/

/-- asc2_deg from src/houses.rs: right ascension to ecliptic longitude on
one quadrant, with explicit zero-numerator and zero-denominator handling. -/
noncomputable def asc2_deg (x f sin_eps cos_eps : ℝ) : ℝ :=
  let x_rad := x * DEG_TO_RAD
  let f_rad := f * DEG_TO_RAD
  let denom0 := -Real.tan f_rad * sin_eps + cos_eps * Real.cos x_rad
  let numer0 := Real.sin x_rad
  let denom := if |denom0| < 1e-15 then 0 else denom0
  let numer := if |numer0| < 1e-15 then 0 else numer0
  let ass :=
    if numer = 0 then (if denom < 0 then -1e-15 else 1e-15)
    else if denom = 0 then (if numer < 0 then -90 else 90)
    else Real.arctan (numer / denom) * RAD_TO_DEG
  if ass < 0 then ass + 180 else ass

/-- asc1_deg from src/houses.rs: extends asc2_deg to the full circle by
quadrant reflection, with snap-to-boundary correction. -/
noncomputable def asc1_deg (x1 f sin_eps cos_eps : ℝ) : ℝ :=
  let x1 := deg_norm x1
  let n := rtrunc (x1 / 90) + 1
  if |90 - f| < 1e-15 then 180
  else if |90 + f| < 1e-15 then 0
  else
    let ass :=
      if n = 1 then asc2_deg x1 f sin_eps cos_eps
      else if n = 2 then 180 - asc2_deg (180 - x1) (-f) sin_eps cos_eps
      else if n = 3 then 180 + asc2_deg (x1 - 180) (-f) sin_eps cos_eps
      else 360 - asc2_deg (360 - x1) f sin_eps cos_eps
    let ass := deg_norm ass
    let ass := if |ass - 90| < 1e-15 then 90 else ass
    let ass := if |ass - 180| < 1e-15 then 180 else ass
    let ass := if |ass - 270| < 1e-15 then 270 else ass
    if |ass - 360| < 1e-15 then 0 else ass

/-- Loop body of placidus_cusp_deg from src/houses.rs, with explicit fuel
for the bounded for-loop (100 iterations).  The cusp argument is the
current estimate, prev the estimate of the previous iteration, and first
records whether this is the first iteration (the convergence test is
skipped on it, matching i > 0 in the source). -/
noncomputable def plac_iter (rectasc tan_lat sin_eps cos_eps divisor : ℝ) :
    ℕ → ℝ → ℝ → Bool → ℝ
  | 0, cusp, _, _ => cusp
  | n + 1, cusp, prev, first =>
    let decl := Real.arcsin (sin_eps * Real.sin (cusp * DEG_TO_RAD))
    let tan_decl := Real.tan decl
    if |tan_decl| < 1e-15 then rectasc
    else
      let ad_arg := tan_lat * tan_decl
      if 1 < |ad_arg| then rectasc
      else
        let ad := Real.arcsin ad_arg
        let f_deg := Real.arctan (Real.sin (ad / divisor) / tan_decl) * RAD_TO_DEG
        let cusp2 := asc1_deg rectasc f_deg sin_eps cos_eps
        if first = false ∧
            (let diff := |cusp2 - prev|
             (if 180 < diff then 360 - diff else diff) < 1 / 360000) then cusp2
        else plac_iter rectasc tan_lat sin_eps cos_eps divisor n cusp2 cusp2 false

/-- placidus_cusp_deg from src/houses.rs: pole-height iteration for one
intermediate Placidus cusp. -/
noncomputable def placidus_cusp_deg (rectasc tan_lat sin_eps cos_eps divisor initial_f : ℝ) : ℝ :=
  plac_iter rectasc tan_lat sin_eps cos_eps divisor 100
    (asc1_deg rectasc initial_f sin_eps cos_eps) 0 true

/-- calc_mc from src/houses.rs. -/
noncomputable def calc_mc (armc eps : ℝ) : ℝ :=
  let mc := atan2 (Real.sin armc) (Real.cos armc * Real.cos eps)
  if mc < 0 then mc + TWOPI else mc

/-- calc_ascendant from src/houses.rs. -/
noncomputable def calc_ascendant (armc lat eps : ℝ) : ℝ :=
  let y := -Real.cos armc
  let x := Real.sin armc * Real.cos eps + Real.tan lat * Real.sin eps
  let asc := atan2 y x
  let asc := asc + Real.pi
  let asc := if asc < 0 then asc + TWOPI else asc
  if TWOPI ≤ asc then asc - TWOPI else asc

/-- calc_vertex from src/houses.rs. -/
noncomputable def calc_vertex (armc lat eps : ℝ) : ℝ :=
  let co_lat := Real.pi / 2 - lat
  let armc_vtx := armc + Real.pi
  calc_ascendant armc_vtx co_lat eps

/-- calc_placidus_cusps from src/houses.rs.  The mutable cusp array becomes
a function from the index; slot 0 and out-of-range indices hold 0. -/
noncomputable def calc_placidus_cusps (armc_deg lat eps mc asc : ℝ) : ℕ → ℝ :=
  let sin_eps := Real.sin eps
  let cos_eps := Real.cos eps
  let tan_lat := Real.tan lat
  let tan_eps := Real.tan eps
  let a_arg := clamp (tan_lat * tan_eps) (-1) 1
  let a := Real.arcsin a_arg
  let fh1 := if 1e-15 < |tan_eps| then Real.arctan (Real.sin (a / 3) / tan_eps) * RAD_TO_DEG else 0
  let fh2 := if 1e-15 < |tan_eps| then Real.arctan (Real.sin (a * 2 / 3) / tan_eps) * RAD_TO_DEG else 0
  let c11 := placidus_cusp_deg (deg_norm (armc_deg + 30)) tan_lat sin_eps cos_eps 3 fh1
  let c12 := placidus_cusp_deg (deg_norm (armc_deg + 60)) tan_lat sin_eps cos_eps 1.5 fh2
  let c2 := placidus_cusp_deg (deg_norm (armc_deg + 120)) tan_lat sin_eps cos_eps 1.5 fh2
  let c3 := placidus_cusp_deg (deg_norm (armc_deg + 150)) tan_lat sin_eps cos_eps 3 fh1
  fun i =>
    match i with
    | 1 => deg_norm (asc * RAD_TO_DEG)
    | 10 => deg_norm (mc * RAD_TO_DEG)
    | 4 => deg_norm ((mc + Real.pi) * RAD_TO_DEG)
    | 7 => deg_norm ((asc + Real.pi) * RAD_TO_DEG)
    | 11 => c11
    | 12 => c12
    | 2 => c2
    | 3 => c3
    | 5 => deg_norm (c11 + 180)
    | 6 => deg_norm (c12 + 180)
    | 8 => deg_norm (c2 + 180)
    | 9 => deg_norm (c3 + 180)
    | _ => 0

/-- calc_houses_placidus from src/houses.rs. -/
noncomputable def calc_houses_placidus (jd_ut lat lon : ℝ) : Except Error Houses :=
  let jd_et := jd_ut + delta_t jd_ut
  let eps := obliquity jd_et
  let armc_deg := armc jd_ut lon
  let armc_rad := armc_deg * DEG_TO_RAD
  let lat_rad := lat * DEG_TO_RAD
  let mc := calc_mc armc_rad eps
  let asc := calc_ascendant armc_rad lat_rad eps
  let cusps := calc_placidus_cusps armc_deg lat_rad eps mc asc
  let vertex := calc_vertex armc_rad lat_rad eps
  .ok ⟨cusps, deg_norm (asc * RAD_TO_DEG), deg_norm (mc * RAD_TO_DEG),
    armc_deg, deg_norm (vertex * RAD_TO_DEG)⟩

/- ------------------------------------------------------------------ -/
/- lib.rs: entry points                                                -/
/- ------------------------------------------------------------------ -/

/-- calc_ut from src/lib.rs: UT to ET conversion followed by per-body
dispatch. -/
noncomputable def calc_ut (jd_ut : ℝ) (planet : Planet) (speed : Bool) :
    Except Error Position :=
  let jd_et := jd_ut + delta_t jd_ut
  match planet with
  | .Moon => calc_moon jd_et speed
  | .TrueNode => calc_true_node jd_et speed
  | p => calc_planet jd_et p speed

/-- calc_houses from src/lib.rs. -/
noncomputable def calc_houses (jd_ut lat lon : ℝ) : Except Error Houses :=
  calc_houses_placidus jd_ut lat lon

/- ------------------------------------------------------------------ -/
/- result-inspection helpers                                           -/
/- ------------------------------------------------------------------ -/

/-- Longitude of a position result; errors give 0. -/
def getLon : Except Error Position → ℝ
  | .ok p => p.longitude
  | .error _ => 0

/-- Houses carried by a result; errors give the all-zero record. -/
noncomputable def hGet : Except Error Houses → Houses
  | .ok h => h
  | .error _ => ⟨fun _ => 0, 0, 0, 0, 0⟩

/-- Whether a position result is the OutOfRange error. -/
def isOutOfRangeRes : Except Error Position → Bool
  | .error .OutOfRange => true
  | _ => false

/-- Whether a position result is an InvalidPlanet error. -/
def isInvalidPlanetRes : Except Error Position → Bool
  | .error (.InvalidPlanet _) => true
  | _ => false

/-- Which bodies are dispatched through the range check of calc_planet. -/
def checksRange : Planet → Bool
  | .Moon => false
  | .TrueNode => false
  | _ => true

/- ------------------------------------------------------------------ -/
/- basic lemmas on the remainder and deg_norm                          -/
/- ------------------------------------------------------------------ -/

lemma rustRem_nonneg {x y : ℝ} (hy : 0 < y) (hx : 0 ≤ x) :
    0 ≤ rustRem x y ∧ rustRem x y < y := by
  have hq : 0 ≤ x / y := div_nonneg hx hy.le
  have ht : rtrunc (x / y) = ⌊x / y⌋ := if_pos hq
  constructor
  · have h1 : (⌊x / y⌋ : ℝ) ≤ x / y := Int.floor_le _
    have := mul_le_mul_of_nonneg_left h1 hy.le
    rw [rustRem, ht]
    rw [mul_div_cancel₀ x hy.ne'] at this
    linarith
  · have h2 : x / y < (⌊x / y⌋ : ℝ) + 1 := Int.lt_floor_add_one _
    have := mul_lt_mul_of_pos_left h2 hy
    rw [mul_add, mul_one, mul_div_cancel₀ x hy.ne'] at this
    rw [rustRem, ht]
    linarith

lemma rustRem_neg {x y : ℝ} (hy : 0 < y) (hx : x < 0) :
    -y < rustRem x y ∧ rustRem x y ≤ 0 := by
  have hq : x / y < 0 := div_neg_of_neg_of_pos hx hy
  have ht : rtrunc (x / y) = -⌊-(x / y)⌋ := if_neg (not_le.mpr hq)
  have h1 : (⌊-(x / y)⌋ : ℝ) ≤ -(x / y) := Int.floor_le _
  have h2 : -(x / y) < (⌊-(x / y)⌋ : ℝ) + 1 := Int.lt_floor_add_one _
  have e1 := mul_le_mul_of_nonneg_left h1 hy.le
  have e2 := mul_lt_mul_of_pos_left h2 hy
  rw [mul_neg, mul_div_cancel₀ x hy.ne'] at e1
  rw [mul_add, mul_one, mul_neg, mul_div_cancel₀ x hy.ne'] at e2
  constructor
  · rw [rustRem, ht]
    push_cast
    linarith
  · rw [rustRem, ht]
    push_cast
    linarith

lemma rustRem_abs_lt {x y : ℝ} (hy : 0 < y) : |rustRem x y| < y := by
  rcases le_or_lt 0 x with hx | hx
  · have := rustRem_nonneg hy hx
    rw [abs_of_nonneg this.1]; exact this.2
  · have := rustRem_neg hy hx
    rw [abs_of_nonpos this.2]; linarith [this.1]

/-- The value produced by deg_norm lies in [0, 360). -/
lemma deg_norm_mem (x : ℝ) : 0 ≤ deg_norm x ∧ deg_norm x < 360 := by
  have hb : |rustRem x 360| < 360 := rustRem_abs_lt (by norm_num)
  rw [abs_lt] at hb
  unfold deg_norm
  dsimp only
  split_ifs with h1 h2 h2 <;> constructor <;> simp_all <;> linarith

/-- deg_norm changes its argument by a multiple of 360 plus a snap
adjustment smaller than 1e-13 in absolute value. -/
lemma deg_norm_approx (x : ℝ) : ∃ k : ℤ, |deg_norm x - (x + 360 * k)| < 1e-13 := by
  have hr : rustRem x 360 = x - 360 * ((rtrunc (x / 360) : ℤ) : ℝ) := by
    unfold rustRem; ring
  set t := rtrunc (x / 360) with ht
  unfold deg_norm
  dsimp only
  split_ifs with h1 h2 h2
  · exact absurd h2 (by norm_num)
  · refine ⟨-t, ?_⟩
    have hz : (0 : ℝ) - (x + 360 * ((-t : ℤ) : ℝ)) = -(rustRem x 360) := by
      push_cast
      rw [hr]
      ring
    rw [hz, abs_neg]
    exact h1
  · refine ⟨1 - t, ?_⟩
    have hz : rustRem x 360 + 360 - (x + 360 * (((1 : ℤ) - t : ℤ) : ℝ)) = 0 := by
      push_cast
      rw [hr]
      ring
    rw [hz]
    norm_num
  · refine ⟨-t, ?_⟩
    have hz : rustRem x 360 - (x + 360 * ((-t : ℤ) : ℝ)) = 0 := by
      push_cast
      rw [hr]
      ring
    rw [hz]
    norm_num

/- ------------------------------------------------------------------ -/
/- shape lemmas: every body computation yields ok with a normalized    -/
/- longitude, except for the range check of calc_planet                -/
/- ------------------------------------------------------------------ -/

lemma cpk_ok_lon_false (jd ml a ecc incl an lp : ℝ) :
    ∃ v, calc_planet_kepler jd ml a ecc incl an lp false = .ok v ∧
      0 ≤ v.longitude ∧ v.longitude < 360 := by
  rw [calc_planet_kepler]
  simp only [Bool.false_eq_true, dite_false]
  exact ⟨_, rfl, deg_norm_mem _⟩

lemma cpk_ok_lon (jd ml a ecc incl an lp : ℝ) (s : Bool) :
    ∃ v, calc_planet_kepler jd ml a ecc incl an lp s = .ok v ∧
      0 ≤ v.longitude ∧ v.longitude < 360 := by
  cases s with
  | false => exact cpk_ok_lon_false jd ml a ecc incl an lp
  | true =>
    rw [calc_planet_kepler]
    simp only [dite_true]
    obtain ⟨v, hv, h1, h2⟩ := cpk_ok_lon_false (jd + 0.1)
      (ml + 0.1 * 360 / (365.25 * a ^ (1.5 : ℝ))) a ecc incl an lp
    rw [hv]
    exact ⟨_, rfl, deg_norm_mem _⟩

lemma calc_sun_ok_lon (jd : ℝ) (s : Bool) :
    ∃ v, calc_sun jd s = .ok v ∧ 0 ≤ v.longitude ∧ v.longitude < 360 := by
  simp only [calc_sun]
  exact ⟨_, rfl, deg_norm_mem _⟩

lemma calc_moon_ok_lon_false (jd : ℝ) :
    ∃ v, calc_moon jd false = .ok v ∧ 0 ≤ v.longitude ∧ v.longitude < 360 := by
  rw [calc_moon]
  simp only [Bool.false_eq_true, dite_false]
  exact ⟨_, rfl, deg_norm_mem _⟩

lemma calc_moon_ok_lon (jd : ℝ) (s : Bool) :
    ∃ v, calc_moon jd s = .ok v ∧ 0 ≤ v.longitude ∧ v.longitude < 360 := by
  cases s with
  | false => exact calc_moon_ok_lon_false jd
  | true =>
    rw [calc_moon]
    simp only [dite_true]
    obtain ⟨v, hv, h1, h2⟩ := calc_moon_ok_lon_false (jd + 0.01)
    rw [hv]
    exact ⟨_, rfl, deg_norm_mem _⟩

lemma calc_true_node_ok_lon_false (jd : ℝ) :
    ∃ v, calc_true_node jd false = .ok v ∧ 0 ≤ v.longitude ∧ v.longitude < 360 := by
  rw [calc_true_node]
  simp only [Bool.false_eq_true, dite_false]
  exact ⟨_, rfl, deg_norm_mem _⟩

lemma calc_true_node_ok_lon (jd : ℝ) (s : Bool) :
    ∃ v, calc_true_node jd s = .ok v ∧ 0 ≤ v.longitude ∧ v.longitude < 360 := by
  cases s with
  | false => exact calc_true_node_ok_lon_false jd
  | true =>
    rw [calc_true_node]
    simp only [dite_true]
    obtain ⟨v, hv, h1, h2⟩ := calc_true_node_ok_lon_false (jd + 0.1)
    rw [hv]
    exact ⟨_, rfl, deg_norm_mem _⟩

/-- In range, calc_planet yields ok with a normalized longitude for the
nine bodies of its dispatch table; out of range it yields OutOfRange. -/
lemma calc_planet_ok_lon (jd : ℝ) (s : Bool) (p : Planet) (hp : checksRange p = true)
    (hr : ¬(jd < MOSHIER_START ∨ MOSHIER_END < jd)) :
    ∃ v, calc_planet jd p s = .ok v ∧ 0 ≤ v.longitude ∧ v.longitude < 360 := by
  unfold calc_planet
  rw [if_neg hr]
  cases p
  case Sun => exact calc_sun_ok_lon jd s
  case Moon => simp [checksRange] at hp
  case TrueNode => simp [checksRange] at hp
  case Mercury => simp only [calc_mercury]; exact cpk_ok_lon _ _ _ _ _ _ _ _
  case Venus => simp only [calc_venus]; exact cpk_ok_lon _ _ _ _ _ _ _ _
  case Mars => simp only [calc_mars]; exact cpk_ok_lon _ _ _ _ _ _ _ _
  case Jupiter => simp only [calc_jupiter]; exact cpk_ok_lon _ _ _ _ _ _ _ _
  case Saturn => simp only [calc_saturn]; exact cpk_ok_lon _ _ _ _ _ _ _ _
  case Uranus => simp only [calc_uranus]; exact cpk_ok_lon _ _ _ _ _ _ _ _
  case Neptune => simp only [calc_neptune]; exact cpk_ok_lon _ _ _ _ _ _ _ _
  case Pluto => simp only [calc_pluto]; exact cpk_ok_lon _ _ _ _ _ _ _ _

lemma calc_planet_oor (jd : ℝ) (s : Bool) (p : Planet)
    (hr : jd < MOSHIER_START ∨ MOSHIER_END < jd) :
    calc_planet jd p s = .error .OutOfRange := by
  unfold calc_planet
  rw [if_pos hr]

/- ------------------------------------------------------------------ -/
/- range lemmas for the house computation                              -/
/- ------------------------------------------------------------------ -/

lemma snap_step (c b : ℝ) (hb : 0 ≤ b ∧ b < 360) (hc : 0 ≤ c ∧ c < 360) :
    0 ≤ (if |b - c| < 1e-15 then c else b) ∧ (if |b - c| < 1e-15 then c else b) < 360 := by
  split_ifs with h
  exacts [hc, hb]

lemma snap_last (b : ℝ) (hb : 0 ≤ b ∧ b < 360) :
    0 ≤ (if |b - 360| < 1e-15 then 0 else b) ∧ (if |b - 360| < 1e-15 then 0 else b) < 360 := by
  split_ifs with h
  exacts [⟨le_refl 0, by norm_num⟩, hb]

lemma asc1_deg_mem (x1 f se ce : ℝ) : 0 ≤ asc1_deg x1 f se ce ∧ asc1_deg x1 f se ce < 360 := by
  unfold asc1_deg
  dsimp only
  by_cases h1 : |90 - f| < 1e-15
  · rw [if_pos h1]
    exact ⟨by norm_num, by norm_num⟩
  · rw [if_neg h1]
    by_cases h2 : |90 + f| < 1e-15
    · rw [if_pos h2]
      exact ⟨le_refl 0, by norm_num⟩
    · rw [if_neg h2]
      exact snap_last _ (snap_step 270 _ (snap_step 180 _ (snap_step 90 _
        (deg_norm_mem _) (by norm_num)) (by norm_num)) (by norm_num))

lemma plac_iter_mem (ra tl se ce dv : ℝ) (hra0 : 0 ≤ ra) (hra1 : ra < 360) :
    ∀ (fuel : ℕ) (cusp prev : ℝ) (first : Bool), 0 ≤ cusp → cusp < 360 →
      0 ≤ plac_iter ra tl se ce dv fuel cusp prev first ∧
        plac_iter ra tl se ce dv fuel cusp prev first < 360 := by
  intro fuel
  induction fuel with
  | zero => intro cusp prev first h0 h1; exact ⟨h0, h1⟩
  | succ n ih =>
    intro cusp prev first h0 h1
    rw [plac_iter]
    dsimp only
    split_ifs
    all_goals
      first
        | exact ⟨hra0, hra1⟩
        | exact asc1_deg_mem _ _ _ _
        | exact ih _ _ _ (asc1_deg_mem _ _ _ _).1 (asc1_deg_mem _ _ _ _).2

lemma placidus_cusp_deg_mem (ra tl se ce dv f0 : ℝ) (hra0 : 0 ≤ ra) (hra1 : ra < 360) :
    0 ≤ placidus_cusp_deg ra tl se ce dv f0 ∧ placidus_cusp_deg ra tl se ce dv f0 < 360 := by
  unfold placidus_cusp_deg
  exact plac_iter_mem ra tl se ce dv hra0 hra1 100 _ 0 true
    (asc1_deg_mem _ _ _ _).1 (asc1_deg_mem _ _ _ _).2

lemma calc_placidus_cusps_mem (armc_deg lat eps mc asc : ℝ) (i : ℕ) :
    0 ≤ calc_placidus_cusps armc_deg lat eps mc asc i ∧
      calc_placidus_cusps armc_deg lat eps mc asc i < 360 := by
  have h30 := deg_norm_mem (armc_deg + 30)
  have h60 := deg_norm_mem (armc_deg + 60)
  have h120 := deg_norm_mem (armc_deg + 120)
  have h150 := deg_norm_mem (armc_deg + 150)
  unfold calc_placidus_cusps
  constructor <;>
    · split
      all_goals
        first
          | exact (deg_norm_mem _).1
          | exact (deg_norm_mem _).2
          | exact (placidus_cusp_deg_mem _ _ _ _ _ _ (deg_norm_mem _).1 (deg_norm_mem _).2).1
          | exact (placidus_cusp_deg_mem _ _ _ _ _ _ (deg_norm_mem _).1 (deg_norm_mem _).2).2
          | exact le_refl 0
          | norm_num

/-- Position carried by a result; errors give the all-zero record. -/
def pGet : Except Error Position → Position
  | .ok p => p
  | .error _ => ⟨0, 0, 0, 0, 0, 0⟩

lemma getLon_mem (r : Except Error Position)
    (h : ∀ v, r = .ok v → 0 ≤ v.longitude ∧ v.longitude < 360) :
    0 ≤ getLon r ∧ getLon r < 360 := by
  cases r with
  | error e => simp [getLon]
  | ok v => simpa [getLon] using h v rfl

lemma calc_planet_lon_of_ok (jd : ℝ) (s : Bool) (p : Planet) (hp : checksRange p = true) :
    ∀ v, calc_planet jd p s = .ok v → 0 ≤ v.longitude ∧ v.longitude < 360 := by
  intro v hv
  by_cases hr : jd < MOSHIER_START ∨ MOSHIER_END < jd
  · rw [calc_planet_oor _ s _ hr] at hv
    exact absurd hv (by simp)
  · obtain ⟨w, hw, h⟩ := calc_planet_ok_lon jd s p hp hr
    rw [hw] at hv
    injection hv with hv
    rwa [← hv]

lemma calc_ut_lon_mem (jd : ℝ) (p : Planet) (s : Bool) :
    0 ≤ getLon (calc_ut jd p s) ∧ getLon (calc_ut jd p s) < 360 := by
  apply getLon_mem
  intro v hv
  revert hv
  unfold calc_ut
  cases p <;> dsimp only <;> intro hv
  case Moon =>
    obtain ⟨w, hw, h⟩ := calc_moon_ok_lon (jd + delta_t jd) s
    rw [hw] at hv
    injection hv with hv
    rwa [← hv]
  case TrueNode =>
    obtain ⟨w, hw, h⟩ := calc_true_node_ok_lon (jd + delta_t jd) s
    rw [hw] at hv
    injection hv with hv
    rwa [← hv]
  all_goals
    exact calc_planet_lon_of_ok _ s _ (by rfl) v hv

lemma calc_houses_fields (jd lat lon : ℝ) :
    hGet (calc_houses jd lat lon) =
      ⟨calc_placidus_cusps (armc jd lon) (lat * DEG_TO_RAD)
          (obliquity (jd + delta_t jd))
          (calc_mc (armc jd lon * DEG_TO_RAD) (obliquity (jd + delta_t jd)))
          (calc_ascendant (armc jd lon * DEG_TO_RAD) (lat * DEG_TO_RAD)
            (obliquity (jd + delta_t jd))),
        deg_norm (calc_ascendant (armc jd lon * DEG_TO_RAD) (lat * DEG_TO_RAD)
          (obliquity (jd + delta_t jd)) * RAD_TO_DEG),
        deg_norm (calc_mc (armc jd lon * DEG_TO_RAD)
          (obliquity (jd + delta_t jd)) * RAD_TO_DEG),
        armc jd lon,
        deg_norm (calc_vertex (armc jd lon * DEG_TO_RAD) (lat * DEG_TO_RAD)
          (obliquity (jd + delta_t jd)) * RAD_TO_DEG)⟩ := by
  rfl

/-- C5: every longitude in a Position returned by calc_ut, and every cusp,
ascendant, mc, and vertex value of a Houses returned by calc_houses, lies
in the half-open interval [0, 360).  Longitudes of error results are read
as 0 through getLon; cusp slot 0 and slots beyond 12 hold 0, also in
range. -/
theorem c5_outputs_normalized (jd_ut : ℝ) (p : Planet) (s : Bool)
    (jd lat lon : ℝ) (i : ℕ) :
    (0 ≤ getLon (calc_ut jd_ut p s) ∧ getLon (calc_ut jd_ut p s) < 360) ∧
    (0 ≤ (hGet (calc_houses jd lat lon)).cusps i ∧
      (hGet (calc_houses jd lat lon)).cusps i < 360) ∧
    (0 ≤ (hGet (calc_houses jd lat lon)).ascendant ∧
      (hGet (calc_houses jd lat lon)).ascendant < 360) ∧
    (0 ≤ (hGet (calc_houses jd lat lon)).mc ∧
      (hGet (calc_houses jd lat lon)).mc < 360) ∧
    (0 ≤ (hGet (calc_houses jd lat lon)).vertex ∧
      (hGet (calc_houses jd lat lon)).vertex < 360) := by
  refine ⟨calc_ut_lon_mem jd_ut p s, ?_, ?_, ?_, ?_⟩ <;>
    rw [calc_houses_fields]
  · exact calc_placidus_cusps_mem _ _ _ _ _ i
  · exact deg_norm_mem _
  · exact deg_norm_mem _
  · exact deg_norm_mem _

/-- C4: the Houses value of calc_houses satisfies cusps 1 = ascendant and
cusps 10 = mc; in the source both sides are the same deg_norm expression
of the same ascendant and midheaven values, so the equality is exact. -/
theorem c4_cusp1_asc_cusp10_mc (jd lat lon : ℝ) :
    (hGet (calc_houses jd lat lon)).cusps 1 = (hGet (calc_houses jd lat lon)).ascendant ∧
    (hGet (calc_houses jd lat lon)).cusps 10 = (hGet (calc_houses jd lat lon)).mc := by
  rw [calc_houses_fields]
  exact ⟨rfl, rfl⟩

/-- C7: for every jd_ut, every lon, and latitude strictly between -90 and
90, calc_houses returns an ok Houses value; no input in this domain makes
the house computation fail. -/
theorem c7_houses_total (jd lat lon : ℝ) (h1 : -90 < lat) (h2 : lat < 90) :
    ∃ h, calc_houses jd lat lon = .ok h := by
  exact ⟨_, rfl⟩

/-- C7 witness at jd = J2000, latitude 0, longitude 0. -/
theorem c7_houses_total_witness :
    ∃ h, calc_houses 2451545 0 0 = .ok h :=
  c7_houses_total 2451545 0 0 (by norm_num) (by norm_num)

/-- C8: calc_true_node always reports latitude 0 and distance 0; without
the speed flag the longitude speed is the fixed constant -0.0529539
degrees per day, and with it the speed is the shortest-path angular
difference of the node longitudes 0.1 day apart divided by 0.1. -/
theorem c8_true_node_fields (jd : ℝ) (s : Bool) :
    (pGet (calc_true_node jd s)).latitude = 0 ∧
    (pGet (calc_true_node jd s)).distance = 0 ∧
    (pGet (calc_true_node jd false)).speed_longitude = -0.0529539 ∧
    (pGet (calc_true_node jd true)).speed_longitude =
      angle_diff (getLon (calc_true_node (jd + 0.1) false))
        (getLon (calc_true_node jd true)) / 0.1 := by
  obtain ⟨v2, hv2, hb⟩ := calc_true_node_ok_lon_false (jd + 0.1)
  refine ⟨?_, ?_, ?_, ?_⟩
  · cases s with
    | false => rw [calc_true_node]; simp [pGet]
    | true =>
      rw [calc_true_node]
      simp only [dite_true]
      rw [hv2]
      simp [pGet]
  · cases s with
    | false => rw [calc_true_node]; simp [pGet]
    | true =>
      rw [calc_true_node]
      simp only [dite_true]
      rw [hv2]
      simp [pGet]
  · rw [calc_true_node]; simp [pGet]
  · rw [hv2]
    rw [calc_true_node]
    simp only [dite_true]
    rw [hv2]
    simp [pGet, getLon]

lemma calc_planet_not_invalid (jd : ℝ) (s : Bool) (p : Planet) (hp : checksRange p = true) :
    isInvalidPlanetRes (calc_planet jd p s) = false := by
  by_cases hr : jd < MOSHIER_START ∨ MOSHIER_END < jd
  · rw [calc_planet_oor _ s _ hr]
    rfl
  · obtain ⟨w, hw, h⟩ := calc_planet_ok_lon jd s p hp hr
    rw [hw]
    rfl

/-- C9: the public entry point calc_ut never produces the InvalidPlanet
error: Moon and TrueNode are dispatched to their own modules before
calc_planet, and every remaining enum variant has its own dispatch arm. -/
theorem c9_no_invalid_planet (jd : ℝ) (p : Planet) (s : Bool) :
    isInvalidPlanetRes (calc_ut jd p s) = false := by
  unfold calc_ut
  cases p <;> dsimp only
  case Moon =>
    obtain ⟨w, hw, h⟩ := calc_moon_ok_lon (jd + delta_t jd) s
    rw [hw]; rfl
  case TrueNode =>
    obtain ⟨w, hw, h⟩ := calc_true_node_ok_lon (jd + delta_t jd) s
    rw [hw]; rfl
  all_goals
    exact calc_planet_not_invalid _ s _ (by rfl)

lemma calc_planet_oor_iff (jd : ℝ) (s : Bool) (p : Planet) (hp : checksRange p = true) :
    isOutOfRangeRes (calc_planet jd p s) =
      (decide (jd < MOSHIER_START) || decide (MOSHIER_END < jd)) := by
  by_cases hA : jd < MOSHIER_START
  · rw [calc_planet_oor _ s _ (Or.inl hA)]
    simp [isOutOfRangeRes, hA]
  · by_cases hB : MOSHIER_END < jd
    · rw [calc_planet_oor _ s _ (Or.inr hB)]
      simp [isOutOfRangeRes, hA, hB]
    · have hr : ¬(jd < MOSHIER_START ∨ MOSHIER_END < jd) := by tauto
      obtain ⟨w, hw, h⟩ := calc_planet_ok_lon jd s p hp hr
      rw [hw]
      simp [isOutOfRangeRes, hA, hB]

/-- C1 (amended): calc_ut returns OutOfRange exactly when the body is one
of the nine dispatched through calc_planet (Sun, Mercury through Pluto)
and the ephemeris time jd_ut + delta_t jd_ut lies outside the interval
[625307.5, 2817057.5]; Moon and TrueNode are dispatched to modules that
perform no range check and never return OutOfRange. -/
theorem c1_range_check_amended (jd : ℝ) (p : Planet) (s : Bool) :
    isOutOfRangeRes (calc_ut jd p s) =
      (checksRange p &&
        (decide (jd + delta_t jd < MOSHIER_START) ||
          decide (MOSHIER_END < jd + delta_t jd))) := by
  unfold calc_ut
  cases p <;> dsimp only
  case Moon =>
    obtain ⟨w, hw, h⟩ := calc_moon_ok_lon (jd + delta_t jd) s
    rw [hw]
    simp [isOutOfRangeRes, checksRange]
  case TrueNode =>
    obtain ⟨w, hw, h⟩ := calc_true_node_ok_lon (jd + delta_t jd) s
    rw [hw]
    simp [isOutOfRangeRes, checksRange]
  all_goals
    simp only [checksRange, Bool.true_and]
  all_goals
    exact calc_planet_oor_iff _ s _ (by rfl)

/-- C1 (counterexample): at jd_ut = 0 the ephemeris time lies far below
the supported interval, yet calc_ut for the Moon succeeds instead of
returning OutOfRange, refuting the claim for the body Moon. -/
theorem c1_cex_moon_ignores_range :
    (0 : ℝ) + delta_t 0 < MOSHIER_START ∧
    isOutOfRangeRes (calc_ut 0 Planet.Moon false) = false := by
  constructor
  · unfold delta_t MOSHIER_START J2000
    dsimp only
    rw [if_pos (show (2000 : ℝ) + ((0 : ℝ) - 2451545.0) / 365.25 < 1900 by norm_num)]
    norm_num
  · obtain ⟨w, hw, h⟩ := calc_moon_ok_lon_false ((0 : ℝ) + delta_t 0)
    unfold calc_ut
    dsimp only
    rw [hw]
    rfl

/-- C6: in the Placidus intermediate-cusp iteration, whenever the current
cusp estimate has a declination with near-zero tangent, or the circumpolar
condition 1 < |tan lat * tan decl| holds, the iteration returns the raw
right-ascension value; and in calc_placidus_cusps that raw value is
deg_norm (armc_deg + offset) with offsets 30, 60, 120, 150 degrees and
semi-arc divisors 3, 1.5, 1.5, 3 for cusps 11, 12, 2, 3 respectively. -/
theorem c6_placidus_degenerate_fallback
    (ra tl se ce dv : ℝ) (n : ℕ) (cusp prev : ℝ) (first : Bool)
    (hdeg : |Real.tan (Real.arcsin (se * Real.sin (cusp * DEG_TO_RAD)))| < 1e-15 ∨
      1 < |tl * Real.tan (Real.arcsin (se * Real.sin (cusp * DEG_TO_RAD)))|) :
    plac_iter ra tl se ce dv (n + 1) cusp prev first = ra ∧
    (∀ armc_deg lat eps mc asc : ℝ, ∃ f1 f2 : ℝ,
      calc_placidus_cusps armc_deg lat eps mc asc 11 =
        placidus_cusp_deg (deg_norm (armc_deg + 30))
          (Real.tan lat) (Real.sin eps) (Real.cos eps) 3 f1 ∧
      calc_placidus_cusps armc_deg lat eps mc asc 12 =
        placidus_cusp_deg (deg_norm (armc_deg + 60))
          (Real.tan lat) (Real.sin eps) (Real.cos eps) 1.5 f2 ∧
      calc_placidus_cusps armc_deg lat eps mc asc 2 =
        placidus_cusp_deg (deg_norm (armc_deg + 120))
          (Real.tan lat) (Real.sin eps) (Real.cos eps) 1.5 f2 ∧
      calc_placidus_cusps armc_deg lat eps mc asc 3 =
        placidus_cusp_deg (deg_norm (armc_deg + 150))
          (Real.tan lat) (Real.sin eps) (Real.cos eps) 3 f1) := by
  constructor
  · rw [plac_iter]
    dsimp only
    rcases hdeg with h | h
    · rw [if_pos h]
    · by_cases h1 : |Real.tan (Real.arcsin (se * Real.sin (cusp * DEG_TO_RAD)))| < 1e-15
      · rw [if_pos h1]
      · rw [if_neg h1, if_pos h]
  · intro armc_deg lat eps mc asc
    unfold calc_placidus_cusps
    exact ⟨_, _, rfl, rfl, rfl, rfl⟩

/-- C6 witness: with sin eps = 0 and cusp estimate 0 the declination is 0,
its tangent is below 1e-15, and one loop step returns the raw right
ascension 42. -/
theorem c6_placidus_degenerate_fallback_witness :
    plac_iter 42 0 0 1 3 1 0 0 true = 42 :=
  (c6_placidus_degenerate_fallback 42 0 0 1 3 0 0 0 true
    (Or.inl (by simp; norm_num))).1

/-- C10: whenever the Rust remainder x % 360 is smaller than 1e-13 in
absolute value (including tiny negative remainders), deg_norm x is exactly
0; moreover deg_norm never returns a value at or above 360, nor below 0. -/
theorem c10_deg_norm_snap (x : ℝ) :
    (|rustRem x 360| < 1e-13 → deg_norm x = 0) ∧
    0 ≤ deg_norm x ∧ deg_norm x < 360 := by
  refine ⟨?_, deg_norm_mem x⟩
  intro h
  unfold deg_norm
  dsimp only
  rw [if_pos h, if_neg (lt_irrefl 0)]

/-- C10 witness at x = -5e-14: the remainder is the tiny negative value
itself, and deg_norm snaps it to exactly 0. -/
theorem c10_deg_norm_snap_witness :
    |rustRem (-5e-14) 360| < 1e-13 ∧ deg_norm (-5e-14) = 0 ∧
    0 ≤ deg_norm (-5e-14 : ℝ) ∧ deg_norm (-5e-14 : ℝ) < 360 := by
  have h0 : rtrunc ((-5e-14 : ℝ) / 360) = 0 := by
    unfold rtrunc
    rw [if_neg (by norm_num)]
    have hf : ⌊-((-5e-14 : ℝ) / 360)⌋ = 0 := by
      rw [Int.floor_eq_zero_iff]
      constructor <;> norm_num
    rw [hf]
    norm_num
  have hr : rustRem (-5e-14 : ℝ) 360 = -5e-14 := by
    unfold rustRem
    rw [h0]
    push_cast
    ring
  have h : |rustRem (-5e-14 : ℝ) 360| < 1e-13 := by
    rw [hr, abs_neg, abs_of_pos (by norm_num : (0 : ℝ) < 5e-14)]
    norm_num
  exact ⟨h, (c10_deg_norm_snap _).1 h, (c10_deg_norm_snap _).2.1, (c10_deg_norm_snap _).2.2⟩

/- ------------------------------------------------------------------ -/
/- analysis of the Kepler solver                                       -/
/- ------------------------------------------------------------------ -/

/-- Kepler residual: the quantity the Newton iteration drives to zero. -/
noncomputable def keplerg (m e x : ℝ) : ℝ := x - e * Real.sin x - m

/-- Newton correction of the Kepler iteration at the estimate x. -/
noncomputable def keplerd (m e x : ℝ) : ℝ := keplerg m e x / (1 - e * Real.cos x)

lemma solve_kepler_aux_succ (m e : ℝ) (n : ℕ) (ea : ℝ) :
    solve_kepler_aux m e (n + 1) ea =
      if |keplerd m e ea| < 1e-12 then ea - keplerd m e ea
      else solve_kepler_aux m e n (ea - keplerd m e ea) := rfl

lemma kepler_den_lb {e : ℝ} (he0 : 0 ≤ e) (he1 : e ≤ 1 / 4) (x : ℝ) :
    (3 : ℝ) / 4 ≤ 1 - e * Real.cos x := by
  have h1 : e * Real.cos x ≤ e * 1 :=
    mul_le_mul_of_nonneg_left (Real.cos_le_one x) he0
  linarith

lemma keplerd_abs_le {m e : ℝ} (he0 : 0 ≤ e) (he1 : e ≤ 1 / 4) (x : ℝ) :
    |keplerd m e x| ≤ (4 / 3) * |keplerg m e x| := by
  have hden := kepler_den_lb he0 he1 x
  have hpos : (0 : ℝ) < 1 - e * Real.cos x := by linarith
  rw [keplerd, abs_div, abs_of_pos hpos, div_le_iff₀ hpos]
  nlinarith [mul_le_mul_of_nonneg_left hden (abs_nonneg (keplerg m e x))]

lemma kepler_newton_identity (m e ea : ℝ) (hden : 1 - e * Real.cos ea ≠ 0) :
    keplerg m e (ea - keplerd m e ea) =
      e * (Real.sin ea * (1 - Real.cos (keplerd m e ea)) +
        Real.cos ea * (Real.sin (keplerd m e ea) - keplerd m e ea)) := by
  have hd : keplerd m e ea * (1 - e * Real.cos ea) = keplerg m e ea :=
    div_mul_cancel₀ _ hden
  unfold keplerg at hd ⊢
  rw [Real.sin_sub]
  linear_combination -hd

lemma one_sub_cos_abs_le (x : ℝ) : |1 - Real.cos x| ≤ x ^ 2 / 2 := by
  have h1 := Real.one_sub_sq_div_two_le_cos (x := x)
  have h2 := Real.cos_le_one x
  rw [abs_of_nonneg (by linarith)]
  linarith

lemma abs_sin_sub_self_le {x : ℝ} (hx : |x| ≤ 1) : |Real.sin x - x| ≤ |x| ^ 3 / 4 := by
  rcases lt_trichotomy x 0 with h | h | h
  · have h1 : 0 < -x := by linarith
    have h2 : -x ≤ 1 := by
      rw [abs_of_neg h] at hx
      linarith
    have hs := Real.sin_gt_sub_cube h1 h2
    have hl := Real.sin_lt h1
    rw [Real.sin_neg] at hs hl
    have hpos : 0 ≤ Real.sin x - x := by linarith
    rw [abs_of_neg h, abs_of_nonneg hpos]
    nlinarith
  · simp [h]
  · have h2 : x ≤ 1 := by
      rw [abs_of_pos h] at hx
      linarith
    have hs := Real.sin_gt_sub_cube h h2
    have hl := Real.sin_lt h
    have hneg : Real.sin x - x ≤ 0 := by linarith
    rw [abs_of_pos h, abs_of_nonpos hneg]
    nlinarith

lemma residual_after_step (m e ea : ℝ) (he0 : 0 ≤ e)
    (hd : |keplerd m e ea| ≤ 1) (hden : 1 - e * Real.cos ea ≠ 0) :
    |keplerg m e (ea - keplerd m e ea)| ≤
      e * ((keplerd m e ea) ^ 2 / 2 + |keplerd m e ea| ^ 3 / 4) := by
  rw [kepler_newton_identity m e ea hden]
  have e1 : |Real.sin ea * (1 - Real.cos (keplerd m e ea))| ≤ (keplerd m e ea) ^ 2 / 2 := by
    rw [abs_mul]
    calc |Real.sin ea| * |1 - Real.cos (keplerd m e ea)|
        ≤ 1 * ((keplerd m e ea) ^ 2 / 2) :=
          mul_le_mul (Real.abs_sin_le_one ea) (one_sub_cos_abs_le _) (abs_nonneg _) zero_le_one
      _ = (keplerd m e ea) ^ 2 / 2 := one_mul _
  have e2 : |Real.cos ea * (Real.sin (keplerd m e ea) - keplerd m e ea)| ≤
      |keplerd m e ea| ^ 3 / 4 := by
    rw [abs_mul]
    calc |Real.cos ea| * |Real.sin (keplerd m e ea) - keplerd m e ea|
        ≤ 1 * (|keplerd m e ea| ^ 3 / 4) :=
          mul_le_mul (Real.abs_cos_le_one ea) (abs_sin_sub_self_le hd) (abs_nonneg _) zero_le_one
      _ = |keplerd m e ea| ^ 3 / 4 := one_mul _
  rw [abs_mul, abs_of_nonneg he0]
  have := abs_add (Real.sin ea * (1 - Real.cos (keplerd m e ea)))
    (Real.cos ea * (Real.sin (keplerd m e ea) - keplerd m e ea))
  have hsum : |Real.sin ea * (1 - Real.cos (keplerd m e ea)) +
      Real.cos ea * (Real.sin (keplerd m e ea) - keplerd m e ea)| ≤
      (keplerd m e ea) ^ 2 / 2 + |keplerd m e ea| ^ 3 / 4 := by linarith
  exact mul_le_mul_of_nonneg_left hsum he0

lemma step_contraction {m e : ℝ} (he0 : 0 ≤ e) (he1 : e ≤ 1 / 4) (ea : ℝ)
    (hg : |keplerg m e ea| ≤ 1 / 4) :
    |keplerg m e (ea - keplerd m e ea)| ≤ (7 / 27) * |keplerg m e ea| ^ 2 := by
  have hden3 := kepler_den_lb he0 he1 ea
  have hden : 1 - e * Real.cos ea ≠ 0 := by linarith
  have hdb := keplerd_abs_le (m := m) he0 he1 ea
  have hd3 : |keplerd m e ea| ≤ 1 / 3 := by linarith
  have hres := residual_after_step m e ea he0 (by linarith) hden
  have hg0 := abs_nonneg (keplerg m e ea)
  have hd0 := abs_nonneg (keplerd m e ea)
  have hsq : (keplerd m e ea) ^ 2 = |keplerd m e ea| ^ 2 := (sq_abs _).symm
  nlinarith [sq_nonneg (|keplerd m e ea| - (4 / 3) * |keplerg m e ea|),
    mul_le_mul_of_nonneg_left hd3 (sq_nonneg |keplerd m e ea|),
    mul_le_mul hdb hdb hd0 (by linarith : (0:ℝ) ≤ 4 / 3 * |keplerg m e ea|)]

/-- Residual bound after k contraction steps, as an exact rational. -/
def bqq : ℕ → ℚ
  | 0 => 1 / 4
  | k + 1 => (7 / 27) * bqq k ^ 2

lemma bqq_nonneg (k : ℕ) : 0 ≤ bqq k := by
  induction k with
  | zero => norm_num [bqq]
  | succ n ih => rw [bqq]; positivity

lemma bqq_le_quarter (k : ℕ) : bqq k ≤ 1 / 4 := by
  induction k with
  | zero => norm_num [bqq]
  | succ n ih =>
    rw [bqq]
    have h0 := bqq_nonneg n
    nlinarith

lemma bqq_anti : Antitone bqq := by
  apply antitone_nat_of_succ_le
  intro n
  rw [bqq]
  have h0 := bqq_nonneg n
  have h1 := bqq_le_quarter n
  nlinarith

lemma bqq_four_lt : (bqq 4 : ℚ) < 1e-10 := by
  show (7 / 27 : ℚ) * ((7 / 27) * ((7 / 27) * ((7 / 27) * (1 / 4) ^ 2) ^ 2) ^ 2) ^ 2 < 1e-10
  norm_num

lemma kepler_loop (m e : ℝ) (he0 : 0 ≤ e) (he1 : e ≤ 1 / 4) :
    ∀ (fuel k : ℕ) (ea : ℝ), 10 ≤ fuel + k → |keplerg m e ea| ≤ (bqq k : ℝ) →
      |keplerg m e (solve_kepler_aux m e fuel ea)| < 1e-10 := by
  intro fuel
  induction fuel with
  | zero =>
    intro k ea hk hg
    have h4 : bqq k ≤ bqq 4 := bqq_anti (by omega)
    have h4R : (bqq k : ℝ) ≤ (bqq 4 : ℝ) := by exact_mod_cast h4
    have hlt : (bqq 4 : ℝ) < 1e-10 := by
      have := bqq_four_lt
      have : ((bqq 4 : ℚ) : ℝ) < ((1e-10 : ℚ) : ℝ) := by exact_mod_cast this
      simpa using this
    calc |keplerg m e (solve_kepler_aux m e 0 ea)| = |keplerg m e ea| := rfl
      _ ≤ (bqq k : ℝ) := hg
      _ ≤ (bqq 4 : ℝ) := h4R
      _ < 1e-10 := hlt
  | succ n ih =>
    intro k ea hk hg
    rw [solve_kepler_aux_succ]
    have hgq : |keplerg m e ea| ≤ 1 / 4 := by
      have hq := bqq_le_quarter k
      have hc : ((bqq k : ℚ) : ℝ) ≤ (((1 : ℚ) / 4 : ℚ) : ℝ) := Rat.cast_le.mpr hq
      norm_num at hc
      linarith
    have hden3 := kepler_den_lb he0 he1 ea
    have hden : 1 - e * Real.cos ea ≠ 0 := by linarith
    split_ifs with h
    · have hd1 : |keplerd m e ea| ≤ 1 := by
        have : (1e-12 : ℝ) ≤ 1 := by norm_num
        linarith
      have hres := residual_after_step m e ea he0 hd1 hden
      have hd0 := abs_nonneg (keplerd m e ea)
      have hsq : (keplerd m e ea) ^ 2 = |keplerd m e ea| ^ 2 := (sq_abs _).symm
      have h2 : |keplerd m e ea| ^ 2 < 1e-24 := by
        have ha : |keplerd m e ea| * |keplerd m e ea| ≤ |keplerd m e ea| * 1e-12 :=
          mul_le_mul_of_nonneg_left h.le hd0
        have hbb : |keplerd m e ea| * 1e-12 < 1e-12 * 1e-12 :=
          mul_lt_mul_of_pos_right h (by norm_num)
        nlinarith [ha, hbb]
      have h3 : |keplerd m e ea| ^ 3 ≤ |keplerd m e ea| ^ 2 := by
        nlinarith [sq_nonneg (|keplerd m e ea|)]
      calc |keplerg m e (ea - keplerd m e ea)|
          ≤ e * ((keplerd m e ea) ^ 2 / 2 + |keplerd m e ea| ^ 3 / 4) := hres
        _ ≤ (1 / 4) * ((keplerd m e ea) ^ 2 / 2 + |keplerd m e ea| ^ 3 / 4) := by
            apply mul_le_mul_of_nonneg_right he1
            rw [hsq]
            positivity
        _ < 1e-10 := by rw [hsq]; nlinarith
    · have hstep := step_contraction (m := m) he0 he1 ea hgq
      have hnext : |keplerg m e (ea - keplerd m e ea)| ≤ (bqq (k + 1) : ℝ) := by
        have hb : (bqq (k + 1) : ℝ) = (7 / 27) * (bqq k : ℝ) ^ 2 := by
          rw [bqq]
          push_cast
          ring
        rw [hb]
        have hg0 := abs_nonneg (keplerg m e ea)
        have hbk0 : (0 : ℝ) ≤ (bqq k : ℝ) := by exact_mod_cast bqq_nonneg k
        nlinarith
      exact ih (k + 1) _ (by omega) hnext

/-- C2: for every mean anomaly m and eccentricity 0 <= e < 0.25, the value
returned by solve_kepler satisfies the Kepler equation to within 1e-10:
the Newton iteration seeded at m, run for at most 10 steps with early
stop at corrections below 1e-12, always leaves a residual below 1e-10,
and no error is ever produced (solve_kepler is a total function). -/
theorem c2_kepler_residual (m e : ℝ) (he0 : 0 ≤ e) (he1 : e < 0.25) :
    |solve_kepler m e - e * Real.sin (solve_kepler m e) - m| < 1e-10 := by
  have he1q : e ≤ 1 / 4 := by
    have : (0.25 : ℝ) = 1 / 4 := by norm_num
    linarith [this ▸ he1]
  have h0 : |keplerg m e m| ≤ (bqq 0 : ℝ) := by
    have hz : keplerg m e m = -(e * Real.sin m) := by
      unfold keplerg
      ring
    rw [hz, abs_neg, abs_mul, abs_of_nonneg he0]
    have hs := Real.abs_sin_le_one m
    have : e * |Real.sin m| ≤ e * 1 := mul_le_mul_of_nonneg_left hs he0
    have hb : ((bqq 0 : ℚ) : ℝ) = 1 / 4 := by norm_num [bqq]
    rw [hb]
    linarith
  have hmain := kepler_loop m e he0 he1q 10 0 m (by omega) h0
  exact hmain

/-- C2 witness at m = 0, e = 0 with the hypotheses discharged there. -/
theorem c2_kepler_residual_witness :
    (0 : ℝ) ≤ 0 ∧ (0 : ℝ) < 0.25 ∧
    |solve_kepler 0 0 - 0 * Real.sin (solve_kepler 0 0) - 0| < 1e-10 :=
  ⟨le_refl 0, by norm_num, c2_kepler_residual 0 0 (le_refl 0) (by norm_num)⟩

/- ------------------------------------------------------------------ -/
/- opposite-cusp analysis                                              -/
/- ------------------------------------------------------------------ -/

lemma add_pi_deg (y : ℝ) : (y + Real.pi) * RAD_TO_DEG = y * RAD_TO_DEG + 180 := by
  unfold RAD_TO_DEG
  field_simp
  ring

lemma pair_deg_norm (x : ℝ) :
    ∃ k : ℤ, |deg_norm x - deg_norm (x + 180) - (180 + 360 * k)| < 2e-13 := by
  obtain ⟨k1, h1⟩ := deg_norm_approx x
  obtain ⟨k2, h2⟩ := deg_norm_approx (x + 180)
  refine ⟨k1 - k2 - 1, ?_⟩
  have hz : deg_norm x - deg_norm (x + 180) - (180 + 360 * ((k1 - k2 - 1 : ℤ) : ℝ)) =
      (deg_norm x - (x + 360 * k1)) - (deg_norm (x + 180) - (x + 180 + 360 * k2)) := by
    push_cast
    ring
  rw [hz]
  have ha := abs_lt.mp h1
  have hb := abs_lt.mp h2
  rw [abs_lt]
  constructor <;> [linarith; linarith]

lemma pair_deg_norm_rev (x : ℝ) :
    ∃ k : ℤ, |deg_norm (x + 180) - deg_norm x - (180 + 360 * k)| < 2e-13 := by
  obtain ⟨k1, h1⟩ := deg_norm_approx x
  obtain ⟨k2, h2⟩ := deg_norm_approx (x + 180)
  refine ⟨k2 - k1, ?_⟩
  have hz : deg_norm (x + 180) - deg_norm x - (180 + 360 * ((k2 - k1 : ℤ) : ℝ)) =
      (deg_norm (x + 180) - (x + 180 + 360 * k2)) - (deg_norm x - (x + 360 * k1)) := by
    push_cast
    ring
  rw [hz]
  have ha := abs_lt.mp h1
  have hb := abs_lt.mp h2
  rw [abs_lt]
  constructor <;> [linarith; linarith]

lemma pair_plain (c : ℝ) :
    ∃ k : ℤ, |c - deg_norm (c + 180) - (180 + 360 * k)| < 2e-13 := by
  obtain ⟨k2, h2⟩ := deg_norm_approx (c + 180)
  refine ⟨-k2 - 1, ?_⟩
  have hz : c - deg_norm (c + 180) - (180 + 360 * ((-k2 - 1 : ℤ) : ℝ)) =
      -(deg_norm (c + 180) - (c + 180 + 360 * k2)) := by
    push_cast
    ring
  rw [hz, abs_neg]
  linarith

lemma pair_plain_rev (c : ℝ) :
    ∃ k : ℤ, |deg_norm (c + 180) - c - (180 + 360 * k)| < 2e-13 := by
  obtain ⟨k2, h2⟩ := deg_norm_approx (c + 180)
  refine ⟨k2, ?_⟩
  have hz : deg_norm (c + 180) - c - (180 + 360 * ((k2 : ℤ) : ℝ)) =
      deg_norm (c + 180) - (c + 180 + 360 * k2) := by
    ring
  rw [hz]
  linarith

lemma calc_placidus_pairs (armc_deg lat eps mc asc : ℝ) (i : ℕ)
    (hi1 : 1 ≤ i) (hi2 : i ≤ 6) :
    ∃ k : ℤ, |calc_placidus_cusps armc_deg lat eps mc asc i -
      calc_placidus_cusps armc_deg lat eps mc asc (i + 6) - (180 + 360 * k)| < 2e-13 := by
  interval_cases i
  · have e1 : calc_placidus_cusps armc_deg lat eps mc asc 1 =
        deg_norm (asc * RAD_TO_DEG) := rfl
    have e7 : calc_placidus_cusps armc_deg lat eps mc asc 7 =
        deg_norm ((asc + Real.pi) * RAD_TO_DEG) := rfl
    rw [e1, e7, add_pi_deg]
    exact pair_deg_norm _
  · have e8 : calc_placidus_cusps armc_deg lat eps mc asc 8 =
        deg_norm (calc_placidus_cusps armc_deg lat eps mc asc 2 + 180) := rfl
    rw [e8]
    exact pair_plain _
  · have e9 : calc_placidus_cusps armc_deg lat eps mc asc 9 =
        deg_norm (calc_placidus_cusps armc_deg lat eps mc asc 3 + 180) := rfl
    rw [e9]
    exact pair_plain _
  · have e4 : calc_placidus_cusps armc_deg lat eps mc asc 4 =
        deg_norm ((mc + Real.pi) * RAD_TO_DEG) := rfl
    have e10 : calc_placidus_cusps armc_deg lat eps mc asc 10 =
        deg_norm (mc * RAD_TO_DEG) := rfl
    rw [e4, e10, add_pi_deg]
    exact pair_deg_norm_rev _
  · have e5 : calc_placidus_cusps armc_deg lat eps mc asc 5 =
        deg_norm (calc_placidus_cusps armc_deg lat eps mc asc 11 + 180) := rfl
    rw [e5]
    exact pair_plain_rev _
  · have e6 : calc_placidus_cusps armc_deg lat eps mc asc 6 =
        deg_norm (calc_placidus_cusps armc_deg lat eps mc asc 12 + 180) := rfl
    rw [e6]
    exact pair_plain_rev _

/-- C3 (amended): for every valid input with latitude strictly between -90
and 90, opposite cusps i and i + 6 (house index i in 1..6) are 180 degrees
apart modulo 360 up to the 1e-13 snap-to-zero adjustment that deg_norm may
apply to either cusp: their difference is within 2e-13 of 180 + 360 k for
some integer k (well inside the 0.01-degree tolerance the spec allows). -/
theorem c3_opposite_cusps_amended (jd lat lon : ℝ) (h1 : -90 < lat) (h2 : lat < 90)
    (i : ℕ) (hi1 : 1 ≤ i) (hi2 : i ≤ 6) :
    ∃ k : ℤ, |(hGet (calc_houses jd lat lon)).cusps i -
      (hGet (calc_houses jd lat lon)).cusps (i + 6) - (180 + 360 * k)| < 2e-13 := by
  rw [calc_houses_fields]
  dsimp only
  exact calc_placidus_pairs _ _ _ _ _ i hi1 hi2

/-- C3 (amended) witness at jd = J2000, latitude 0, longitude 0, i = 1. -/
theorem c3_opposite_cusps_amended_witness :
    ∃ k : ℤ, |(hGet (calc_houses 2451545 0 0)).cusps 1 -
      (hGet (calc_houses 2451545 0 0)).cusps 7 - (180 + 360 * k)| < 2e-13 :=
  c3_opposite_cusps_amended 2451545 0 0 (by norm_num) (by norm_num) 1
    (le_refl 1) (by norm_num)

/- ------------------------------------------------------------------ -/
/- pointwise evaluation helpers for the boundary analysis              -/
/- ------------------------------------------------------------------ -/

lemma arctan_pos_of_pos {u : ℝ} (hu : 0 < u) : 0 < Real.arctan u := by
  have h := Real.arctan_strictMono hu
  rwa [Real.arctan_zero] at h

lemma arctan_le_self {u : ℝ} (hu : 0 ≤ u) : Real.arctan u ≤ u := by
  have h1 : 0 ≤ Real.arctan u := by
    have h := Real.arctan_strictMono.monotone hu
    rwa [Real.arctan_zero] at h
  have h2 := Real.arctan_lt_pi_div_two u
  have h3 := Real.le_tan h1 h2
  rwa [Real.tan_arctan] at h3

lemma deg_norm_of_bounds {u : ℝ} (h0 : 0 ≤ u) (h1 : u < 360) (h2 : ¬|u| < 1e-13) :
    deg_norm u = u := by
  have hq : 0 ≤ u / 360 := by positivity
  have hf : ⌊u / 360⌋ = 0 := by
    rw [Int.floor_eq_zero_iff, Set.mem_Ico]
    constructor
    · exact hq
    · rw [div_lt_one (by norm_num : (0:ℝ) < 360)]
      exact h1
  have hrem : rustRem u 360 = u := by
    unfold rustRem rtrunc
    rw [if_pos hq, hf]
    push_cast
    ring
  unfold deg_norm
  dsimp only
  rw [hrem, if_neg h2, if_neg (not_lt.mpr h0)]

lemma deg_norm_of_snap_high {u : ℝ} (h0 : 360 ≤ u) (h1 : u < 360 + 1e-13) :
    deg_norm u = 0 := by
  have hq : 0 ≤ u / 360 := by positivity
  have hf : ⌊u / 360⌋ = 1 := by
    rw [Int.floor_eq_iff]
    constructor
    · push_cast
      rw [le_div_iff₀ (by norm_num : (0:ℝ) < 360)]
      linarith
    · push_cast
      rw [div_lt_iff₀ (by norm_num : (0:ℝ) < 360)]
      linarith
  have hrem : rustRem u 360 = u - 360 := by
    unfold rustRem rtrunc
    rw [if_pos hq, hf]
    push_cast
    ring
  have hsnap : |u - 360| < 1e-13 := by
    rw [abs_of_nonneg (by linarith)]
    linarith
  unfold deg_norm
  dsimp only
  rw [hrem, if_pos hsnap, if_neg (lt_irrefl 0)]

/-- armc at J2000 with the longitude tuned so the cancellation is exact:
the resulting right ascension of the meridian is exactly 180 + 4e-14
degrees. -/
lemma armc_tuned :
    armc 2451545 (180 + 4e-14 - 15 * sidereal_time 2451545) = 180 + 4e-14 := by
  unfold armc local_sidereal_time
  dsimp only
  have hcancel : sidereal_time 2451545 +
      (180 + 4e-14 - 15 * sidereal_time 2451545) / 15 = (180 + 4e-14) / 15 := by
    ring
  rw [hcancel]
  have hq : 0 ≤ ((180 + 4e-14 : ℝ) / 15) / 24 := by positivity
  have hf : ⌊((180 + 4e-14 : ℝ) / 15) / 24⌋ = 0 := by
    rw [Int.floor_eq_zero_iff, Set.mem_Ico]
    constructor
    · exact hq
    · norm_num
  have hrem : rustRem ((180 + 4e-14 : ℝ) / 15) 24 = (180 + 4e-14) / 15 := by
    unfold rustRem rtrunc
    rw [if_pos hq, hf]
    push_cast
    ring
  rw [hrem, if_neg (by norm_num : ¬((180 + 4e-14 : ℝ) / 15 < 0))]
  ring

/-- delta_t at the J2000 epoch evaluates on the 1950-2005 branch to
63.86 seconds. -/
lemma delta_t_j2000 : delta_t 2451545 = 63.86 / 86400 := by
  unfold delta_t J2000
  dsimp only
  have hy : (2000 : ℝ) + ((2451545 : ℝ) - 2451545.0) / 365.25 = 2000 := by norm_num
  rw [hy]
  rw [if_neg (by norm_num : ¬(2000 : ℝ) < 1900),
    if_neg (by norm_num : ¬(2000 : ℝ) < 1950),
    if_pos (by norm_num : (2000 : ℝ) < 2005)]
  norm_num

lemma obliquity_j2000_bounds :
    0.409 < obliquity (2451545 + delta_t 2451545) ∧
    obliquity (2451545 + delta_t 2451545) < 0.4091 := by
  rw [delta_t_j2000]
  unfold obliquity J2000 DAYS_PER_CENTURY ARCSEC_TO_RAD
  dsimp only
  set τ : ℝ := ((2451545 : ℝ) + 63.86 / 86400 - 2451545.0) / 36525 with hτ
  have hP1 : (84381.40 : ℝ) < 84381.406 - 46.836769 * τ - 0.0001831 * τ * τ
      + 0.00200340 * τ * τ * τ - 0.000000576 * τ * τ * τ * τ
      - 0.0000000434 * τ * τ * τ * τ * τ := by
    rw [hτ]
    norm_num
  have hP2 : (84381.406 : ℝ) - 46.836769 * τ - 0.0001831 * τ * τ
      + 0.00200340 * τ * τ * τ - 0.000000576 * τ * τ * τ * τ
      - 0.0000000434 * τ * τ * τ * τ * τ < 84381.41 := by
    rw [hτ]
    norm_num
  have hπl : (3.1415 : ℝ) < Real.pi := Real.pi_gt_d4
  have hπu : Real.pi < 3.1416 := Real.pi_lt_d4
  constructor
  · nlinarith
  · nlinarith

lemma cos_obliquity_j2000 :
    0.916 < Real.cos (obliquity (2451545 + delta_t 2451545)) ∧
    Real.cos (obliquity (2451545 + delta_t 2451545)) ≤ 1 := by
  obtain ⟨hl, hu⟩ := obliquity_j2000_bounds
  refine ⟨?_, Real.cos_le_one _⟩
  have h := Real.one_sub_sq_div_two_le_cos (x := obliquity (2451545 + delta_t 2451545))
  nlinarith

/-- Behaviour of calc_mc for a right ascension slightly beyond 180
degrees: both atan2 arguments are negative, so the result is the arctan
of the positive ratio shifted up by pi. -/
lemma calc_mc_near_pi {η eps : ℝ} (hη0 : 0 < η) (hη1 : η < 45)
    (hce : 0 < Real.cos eps) :
    calc_mc ((180 + η) * DEG_TO_RAD) eps =
      Real.arctan (Real.sin (η * DEG_TO_RAD) /
        (Real.cos (η * DEG_TO_RAD) * Real.cos eps)) + Real.pi := by
  have hπ := Real.pi_pos
  have hsplit : (180 + η) * DEG_TO_RAD = Real.pi + η * DEG_TO_RAD := by
    unfold DEG_TO_RAD
    field_simp
    ring
  have ha0 : 0 < η * DEG_TO_RAD := by
    unfold DEG_TO_RAD
    positivity
  have ha2 : η * DEG_TO_RAD < Real.pi / 2 := by
    unfold DEG_TO_RAD
    nlinarith
  have hsin : Real.sin ((180 + η) * DEG_TO_RAD) = -Real.sin (η * DEG_TO_RAD) := by
    rw [hsplit, Real.sin_add]
    simp
  have hcos : Real.cos ((180 + η) * DEG_TO_RAD) = -Real.cos (η * DEG_TO_RAD) := by
    rw [hsplit, Real.cos_add]
    simp
  have hsa : 0 < Real.sin (η * DEG_TO_RAD) :=
    Real.sin_pos_of_pos_of_lt_pi ha0 (by linarith)
  have hca : 0 < Real.cos (η * DEG_TO_RAD) :=
    Real.cos_pos_of_mem_Ioo ⟨by linarith, ha2⟩
  unfold calc_mc atan2
  dsimp only
  rw [hsin, hcos]
  have hx : -Real.cos (η * DEG_TO_RAD) * Real.cos eps < 0 := by nlinarith
  rw [if_neg (by linarith : ¬(0 < -Real.cos (η * DEG_TO_RAD) * Real.cos eps)),
    if_pos hx, if_neg (by linarith : ¬(0 ≤ -Real.sin (η * DEG_TO_RAD)))]
  have hdiv : -Real.sin (η * DEG_TO_RAD) / (-Real.cos (η * DEG_TO_RAD) * Real.cos eps) =
      Real.sin (η * DEG_TO_RAD) / (Real.cos (η * DEG_TO_RAD) * Real.cos eps) := by
    rw [neg_mul, neg_div_neg_eq]
  rw [hdiv]
  have harc2 := Real.arctan_lt_pi_div_two
    (Real.sin (η * DEG_TO_RAD) / (Real.cos (η * DEG_TO_RAD) * Real.cos eps))
  have hneg : Real.arctan (Real.sin (η * DEG_TO_RAD) /
      (Real.cos (η * DEG_TO_RAD) * Real.cos eps)) - Real.pi < 0 := by linarith
  rw [if_pos hneg]
  unfold TWOPI
  ring

lemma s_bounds_j2000 :
    0 < Real.arctan (Real.sin ((4e-14 : ℝ) * DEG_TO_RAD) /
        (Real.cos ((4e-14 : ℝ) * DEG_TO_RAD) *
          Real.cos (obliquity (2451545 + delta_t 2451545)))) * RAD_TO_DEG ∧
    Real.arctan (Real.sin ((4e-14 : ℝ) * DEG_TO_RAD) /
        (Real.cos ((4e-14 : ℝ) * DEG_TO_RAD) *
          Real.cos (obliquity (2451545 + delta_t 2451545)))) * RAD_TO_DEG < 1e-13 := by
  obtain ⟨hce, hce1⟩ := cos_obliquity_j2000
  have hπ := Real.pi_pos
  have hπl : (3.1415 : ℝ) < Real.pi := Real.pi_gt_d4
  have hπu : Real.pi < 3.1416 := Real.pi_lt_d4
  have hπne := Real.pi_ne_zero
  set eps := obliquity (2451545 + delta_t 2451545)
  set a : ℝ := (4e-14 : ℝ) * DEG_TO_RAD with ha
  have ha0 : 0 < a := by
    rw [ha]
    unfold DEG_TO_RAD
    positivity
  have ha1 : a < 1e-15 := by
    rw [ha]
    unfold DEG_TO_RAD
    nlinarith
  have hsa0 : 0 < Real.sin a := Real.sin_pos_of_pos_of_lt_pi ha0 (by linarith)
  have hsa : Real.sin a ≤ a := Real.sin_le ha0.le
  have hca : (0.99 : ℝ) < Real.cos a := by
    have h := Real.one_sub_sq_div_two_le_cos (x := a)
    nlinarith
  have hden : (0.9 : ℝ) < Real.cos a * Real.cos eps := by nlinarith
  have hden0 : (0 : ℝ) < Real.cos a * Real.cos eps := by linarith
  have hQ0 : 0 < Real.sin a / (Real.cos a * Real.cos eps) := div_pos hsa0 hden0
  have hQle : Real.sin a / (Real.cos a * Real.cos eps) ≤ a / 0.9 :=
    div_le_div₀ ha0.le hsa (by norm_num) hden.le
  have harct : Real.arctan (Real.sin a / (Real.cos a * Real.cos eps)) ≤
      Real.sin a / (Real.cos a * Real.cos eps) := arctan_le_self hQ0.le
  have harct0 : 0 < Real.arctan (Real.sin a / (Real.cos a * Real.cos eps)) :=
    arctan_pos_of_pos hQ0
  have hR : (0 : ℝ) < RAD_TO_DEG := by
    unfold RAD_TO_DEG
    positivity
  constructor
  · exact mul_pos harct0 hR
  · have hchain : Real.arctan (Real.sin a / (Real.cos a * Real.cos eps)) * RAD_TO_DEG ≤
        (a / 0.9) * RAD_TO_DEG :=
      mul_le_mul_of_nonneg_right (harct.trans hQle) hR.le
    have hcancel : (a / 0.9) * RAD_TO_DEG = 4e-14 / 0.9 := by
      rw [ha]
      unfold DEG_TO_RAD RAD_TO_DEG
      field_simp
      ring
    rw [hcancel] at hchain
    calc Real.arctan (Real.sin a / (Real.cos a * Real.cos eps)) * RAD_TO_DEG
        ≤ 4e-14 / 0.9 := hchain
      _ < 1e-13 := by norm_num

/-- C3 (counterexample): at jd_ut = J2000, latitude 0 and a longitude
tuned so the ARMC is exactly 180 + 4e-14 degrees, cusp 10 (the MC) lands
strictly between 180 and 180 + 1e-13 degrees while cusp 4 is snapped to
exactly 0 by the 1e-13 guard of deg_norm, so the two cusps (both proper
angles in [0,360)) are not exactly 180 degrees apart modulo 360. -/
theorem c3_cex_cusp4_cusp10_not_opposite :
    ((-90 : ℝ) < 0 ∧ (0 : ℝ) < 90) ∧
    (hGet (calc_houses 2451545 0 (180 + 4e-14 - 15 * sidereal_time 2451545))).cusps 4 = 0 ∧
    180 < (hGet (calc_houses 2451545 0 (180 + 4e-14 - 15 * sidereal_time 2451545))).cusps 10 ∧
    (hGet (calc_houses 2451545 0 (180 + 4e-14 - 15 * sidereal_time 2451545))).cusps 10
      < 180 + 1e-13 := by
  obtain ⟨hce, hce1⟩ := cos_obliquity_j2000
  obtain ⟨hs0, hs1⟩ := s_bounds_j2000
  have hπ := Real.pi_pos
  have e10 : (hGet (calc_houses 2451545 0 (180 + 4e-14 - 15 * sidereal_time 2451545))).cusps 10 =
      deg_norm (calc_mc (armc 2451545 (180 + 4e-14 - 15 * sidereal_time 2451545) * DEG_TO_RAD)
        (obliquity (2451545 + delta_t 2451545)) * RAD_TO_DEG) := rfl
  have e4 : (hGet (calc_houses 2451545 0 (180 + 4e-14 - 15 * sidereal_time 2451545))).cusps 4 =
      deg_norm ((calc_mc (armc 2451545 (180 + 4e-14 - 15 * sidereal_time 2451545) * DEG_TO_RAD)
        (obliquity (2451545 + delta_t 2451545)) + Real.pi) * RAD_TO_DEG) := rfl
  have hmc : calc_mc (armc 2451545 (180 + 4e-14 - 15 * sidereal_time 2451545) * DEG_TO_RAD)
      (obliquity (2451545 + delta_t 2451545)) =
      Real.arctan (Real.sin ((4e-14 : ℝ) * DEG_TO_RAD) /
        (Real.cos ((4e-14 : ℝ) * DEG_TO_RAD) *
          Real.cos (obliquity (2451545 + delta_t 2451545)))) + Real.pi := by
    rw [armc_tuned]
    exact calc_mc_near_pi (by norm_num) (by norm_num) (by linarith)
  set s := Real.arctan (Real.sin ((4e-14 : ℝ) * DEG_TO_RAD) /
      (Real.cos ((4e-14 : ℝ) * DEG_TO_RAD) *
        Real.cos (obliquity (2451545 + delta_t 2451545)))) * RAD_TO_DEG with hsdef
  have h10 : (hGet (calc_houses 2451545 0 (180 + 4e-14 - 15 * sidereal_time 2451545))).cusps 10 =
      s + 180 := by
    rw [e10, hmc, add_pi_deg, ← hsdef]
    apply deg_norm_of_bounds
    · linarith
    · linarith
    · intro hc
      rw [abs_of_pos (by linarith)] at hc
      linarith
  have h4 : (hGet (calc_houses 2451545 0 (180 + 4e-14 - 15 * sidereal_time 2451545))).cusps 4 =
      0 := by
    rw [e4, hmc]
    have hre : (Real.arctan (Real.sin ((4e-14 : ℝ) * DEG_TO_RAD) /
        (Real.cos ((4e-14 : ℝ) * DEG_TO_RAD) *
          Real.cos (obliquity (2451545 + delta_t 2451545)))) + Real.pi + Real.pi) * RAD_TO_DEG =
        s + 360 := by
      rw [hsdef]
      unfold RAD_TO_DEG
      field_simp
      ring
    rw [hre]
    apply deg_norm_of_snap_high
    · linarith
    · linarith
  refine ⟨⟨by norm_num, by norm_num⟩, h4, ?_, ?_⟩
  · rw [h10]
    linarith
  · rw [h10]
    linarith

end Ephem
